import Mathlib

/-!
# cl_fpgarr: record/replay runtime header, `rr_tool` driver and `test_dram_dma`

A shallow embedding of

* `software/runtime/cl_fpgarr.h` (register map, 64-bit split/join helpers, buffer constants),
* `software/runtime/rr_tool/cl_fpgarr_main.cpp` (`print_help`, `DecoderCmdExec`, `parse_args`,
  `main`),
* `software/runtime/test_dram_dma.c` (`main`, `dma_example`, `axi_mstr_example`,
  `axi_mstr_ddr_access`, `pcim_example`),

and a model, taken from the specification, of the trace decoder and encoder that `rr_tool` calls,
followed by the properties established about them.
-/

set_option autoImplicit false

/-! ## `cl_fpgarr.h` -/

namespace cl_fpgarr

/-- The macro `#define CL_FPGARR_CSR_BASE 0x100000` -/
def CL_FPGARR_CSR_BASE : Nat := 0x100000

/-- The macro `#define RR_CSR_VERSION_INT 20211128` -/
def RR_CSR_VERSION_INT : Nat := 20211128

/-- The enumeration `rr_csr_enum`, enumerators in declaration order.  Only the first one carries
an explicit initialiser (`= 0`); the others are numbered by the C rule "previous plus one". -/
inductive rr_csr_enum where
  | BUF_ADDR_HI
  | BUF_ADDR_LO
  | BUF_SIZE_HI
  | BUF_SIZE_LO
  | RECORD_BUF_UPDATE
  | REPLAY_BUF_UPDATE
  | RECORD_FORCE_FINISH
  | REPLAY_START
  | RR_MODE
  | RR_STATE
  | RECORD_BITS_HI
  | RECORD_BITS_LO
  | REPLAY_BITS_HI
  | REPLAY_BITS_LO
  | VALIDATE_BUF_UPDATE
  | RR_RSVD_2
  | VALIDATE_BITS_HI
  | VALIDATE_BITS_LO
  | RT_REPLAY_BITS_HI
  | RT_REPLAY_BITS_LO
  | RR_TRACE_FIFO_ASSERT
  | RR_CSR_VERSION
  | RR_WB_RECORD_DBG_BITS_NON_ALIGNED_HI
  | RR_WB_RECORD_DBG_BITS_NON_ALIGNED_LO
  | RR_WB_RECORD_DBG_BITS_FIFO_WR_CNT
  | RR_WB_RECORD_DBG_BITS_CHPKT_CNT_pcim_R
  | RR_WB_RECORD_DBG_BITS_CHPKT_CNT_sda_AW
  | RR_WB_RECORD_DBG_BITS_CHPKT_CNT_bar1_W
  | RR_WB_RECORD_DBG_BITS_CHPKT_CNT_ocl_AR
  | RR_WB_RECORD_DBG_BITS_CHPKT_CNT_pcis_AW
  | RR_WB_RECORD_DBG_BITS_CHPKT_CNT_ocl_AW
  | RR_WB_RECORD_DBG_BITS_CHPKT_CNT_ocl_W
  | RR_WB_RECORD_DBG_BITS_CHPKT_CNT_bar1_AW
  | RR_WB_RECORD_DBG_BITS_CHPKT_CNT_pcis_W
  | RR_WB_RECORD_DBG_BITS_CHPKT_CNT_pcis_B
  | RR_WB_RECORD_DBG_BITS_CHPKT_CNT_pcis_AR
  | RR_WB_RECORD_DBG_BITS_CHPKT_CNT_sda_AR
  | RR_WB_RECORD_DBG_BITS_CHPKT_CNT_sda_W
  | RR_WB_RECORD_DBG_BITS_CHPKT_CNT_bar1_AR
  deriving DecidableEq, Repr

/-- The integer value of an enumerator: its position in the declaration, the first being `0`. -/
def rr_csr_enum.val (e : rr_csr_enum) : Nat := e.toCtorIdx

/-- The macro `#define RR_CSR_ADDR(idx) (CL_FPGARR_CSR_BASE + 0x4 * idx)` -/
def RR_CSR_ADDR (idx : Nat) : Nat := CL_FPGARR_CSR_BASE + 0x4 * idx

/-- The macro `#define UINT64_HI32(x) ((((uint64_t) x) >> 32) & 0xffffffff)`; the cast is
`% 2^64`. -/
def UINT64_HI32 (x : Nat) : Nat := ((x % 2 ^ 64) >>> 32) &&& 0xffffffff

/-- The macro `#define UINT64_LO32(x) ( ((uint64_t) x) & 0xffffffff)` -/
def UINT64_LO32 (x : Nat) : Nat := (x % 2 ^ 64) &&& 0xffffffff

/-- The macro `#define UINT64_FROM32(hi, lo) ((((uint64_t) hi) << 32) | ((uint64_t) lo))`; the
shift is taken in 64 bits. -/
def UINT64_FROM32 (hi lo : Nat) : Nat := (((hi % 2 ^ 64) <<< 32) % 2 ^ 64) ||| (lo % 2 ^ 64)

/-- The macro `DEFAULT_BUFFER_SIZE`: `(0x8000000)` under `#ifdef SV_TEST`, `(1ULL << 30)`
otherwise. -/
def DEFAULT_BUFFER_SIZE (SV_TEST : Bool) : Nat :=
  if SV_TEST then 0x8000000 else (1 <<< 30) % 2 ^ 64

/-- The macro `POLLING_INTERVAL`: `1` under `#ifdef SV_TEST`, `5` otherwise. -/
def POLLING_INTERVAL (SV_TEST : Bool) : Nat := if SV_TEST then 1 else 5

/-- The macro `#define BUFFER_ALIGNMENT 4096` -/
def BUFFER_ALIGNMENT : Nat := 4096

/-- The macro `#define TRACE_LEN_BYTES 8` -/
def TRACE_LEN_BYTES : Nat := 8

end cl_fpgarr

/-! ## `rr_tool/cl_fpgarr_main.cpp` -/

namespace rr_tool

/-- The two bus configurations `DecoderCmdExec` is instantiated with in `main`. -/
inductive BUSCFG where
  | record_bus_t
  | validate_bus_t
  deriving DecidableEq, Repr

/-- Values of `argoptions_t::cfg_type`.  The enumeration is declared in a header outside this
development; the source names `CFG_RECORD` and `CFG_VERIF`, every other value the field can hold
is `CFG_OTHER`. -/
inductive cfg_type_t where
  | CFG_RECORD
  | CFG_VERIF
  | CFG_OTHER (n : Nat)
  deriving DecidableEq, Repr

/-- Values of `argoptions_t::op_type`: the source names `OP_ANLYS`, `OP_COMP` and `OP_MUTATE`,
every other value the field can hold is `OP_OTHER`. -/
inductive op_type_t where
  | OP_ANLYS
  | OP_COMP
  | OP_MUTATE
  | OP_OTHER (n : Nat)
  deriving DecidableEq, Repr

/-- The fields of `argoptions_t` that `cl_fpgarr_main.cpp` reads or writes.  A `const char *` is an
`Option String` (`none` is `nullptr`); `comp_filepaths` is the two-element array. -/
structure argoptions_t where
  cfg_type : cfg_type_t
  op_type : op_type_t
  anlys_filepath : Option String
  comp_filepaths : Option String × Option String
  input_filepath : Option String
  output_filepath : Option String
  isVerbose : Bool
  enableHBVer2 : Bool
  deriving DecidableEq, Repr

/-- What `cl_fpgarr_main.cpp` calls but does not define, for a type `Trace` of decoded traces
(`VIDITrace<BUSCFG>`) and a type `World` of everything outside the program (files, `stdout`,
`stderr`).

* `parse_trace cfg path` is `Decoder<BUSCFG> d(path); d.parse_trace(T);` and yields the trace left
  in `T`.  The call returns `void`, so a decode that fails cannot hand control back with an error:
  `none` stands for "control does not come back to the caller".
* `gen_report cfg T verbose` is `T.gen_report(stdout, verbose)`.
* `gen_compare_report cfg T1 T2 verbose hbver2` is `T1.gen_compare_report(stdout, T2, verbose,
  hbver2)` with its `bool` result.
* `export_trace cfg path T` is `Encoder<BUSCFG> e(path); e.export_trace(T);`.
* `puts` and `fprintf_stderr` print a string. -/
structure Collaborators (Trace World : Type) where
  parse_trace : BUSCFG → Option String → World → Option (Trace × World)
  gen_report : BUSCFG → Trace → Bool → World → World
  gen_compare_report : BUSCFG → Trace → Trace → Bool → Bool → World → Bool × World
  export_trace : BUSCFG → Option String → Trace → World → Option World
  puts : String → World → World
  fprintf_stderr : String → World → World

section
variable {Trace World : Type}

/-- The function `void print_help()`: four calls of `puts`. -/
def print_help (C : Collaborators Trace World) (w : World) : World :=
  let w := C.puts "rr_tool: [options] cfg_type cmd xxx.dump ...\n" w
  let w := C.puts ("options:\n" ++
      "\t -d for dump/verbose\n" ++
      "\t --hbver2 to enable the end-end definiton of happens-before") w
  let w := C.puts "cfg_type ([-r|-v]) : -r for record_bus_t, -v for validate_bus_t\n" w
  C.puts ("cmd ([-a FILE|-c FILE1 -c FILE2|-m FILE -o OUT_FILE]) : \n" ++
      "-a for analyse (take one file),\n" ++
      "-c for compare (take two files)\n" ++
      "-m for mutation, -o to specify output file\n") w

/-- The function `template <typename BUSCFG> int DecoderCmdExec(const argoptions_t &options)`.

`rc` is the local `int rc;`, declared without an initialiser: the argument is the indeterminate
value it holds until a branch assigns it.  The result is the returned `int` and the world the
call leaves, or `none` when a decoder or the encoder does not hand control back. -/
def DecoderCmdExec (C : Collaborators Trace World) (cfg : BUSCFG) (options : argoptions_t)
    (rc : Int) (w : World) : Option (Int × World) :=
  match options.op_type with
  | .OP_ANLYS =>
    match C.parse_trace cfg options.anlys_filepath w with
    | none => none
    | some (T, w) =>
      let w := C.gen_report cfg T options.isVerbose w
      some (rc, w)
  | .OP_COMP =>
    match C.parse_trace cfg options.comp_filepaths.1 w with
    | none => none
    | some (T1, w) =>
      match C.parse_trace cfg options.comp_filepaths.2 w with
      | none => none
      | some (T2, w) =>
        let r := C.gen_compare_report cfg T1 T2 options.isVerbose options.enableHBVer2 w
        let rc : Int := if r.1 != true then 1 else 0
        some (rc, r.2)
  | .OP_MUTATE =>
    match C.parse_trace cfg options.input_filepath w with
    | none => none
    | some (Tin, w) =>
      match C.export_trace cfg options.output_filepath Tin w with
      | none => none
      | some w => some (0, w)
  | .OP_OTHER _ => some (-1, w)

/-- The enumerator `OPT_HBVER2 = 0x100`, the value `getopt_long` returns for `--hbver2`. -/
def OPT_HBVER2 : Int := 0x100

/-- One return of `getopt_long(argc, argv, "rva:c:m:o:d", long_options, NULL)`: the returned
`int` and the value of the global `optarg` at that moment. -/
structure getopt_ret where
  opt : Int
  optarg : Option String
  deriving DecidableEq, Repr

/-- The body of the `switch (opt)` in `parse_args`; `none` is the `default:` branch, which prints
the help and calls `exit(-1)`.  `case 'o':` has no `break` and runs into `case OPT_HBVER2:`. -/
def parse_args_switch (opt : Int) (optarg : Option String) (options : argoptions_t) :
    Option argoptions_t :=
  if opt = ('r').toNat then
    some { options with cfg_type := .CFG_RECORD }
  else if opt = ('v').toNat then
    some { options with cfg_type := .CFG_VERIF }
  else if opt = ('a').toNat then
    some { options with op_type := .OP_ANLYS, anlys_filepath := optarg }
  else if opt = ('c').toNat then
    let options := { options with op_type := .OP_COMP }
    if options.comp_filepaths.1 = none then
      some { options with comp_filepaths := (optarg, options.comp_filepaths.2) }
    else
      some { options with comp_filepaths := (options.comp_filepaths.1, optarg) }
  else if opt = ('d').toNat then
    some { options with isVerbose := true }
  else if opt = ('m').toNat then
    some { options with op_type := .OP_MUTATE, input_filepath := optarg }
  else if opt = ('o').toNat then
    let options := { options with output_filepath := optarg }
    some { options with enableHBVer2 := true }
  else if opt = OPT_HBVER2 then
    some { options with enableHBVer2 := true }
  else
    none

/-- The function `void parse_args(int argc, char *const argv[], argoptions_t *options)`.

`getopt_long` is a library function; `rets` is the sequence of values its successive calls return
for the given command line.  The loop runs until a call returns `-1`, which is also what
`getopt_long` returns once `rets` is used up.  The result is the options left in `*options`, or
`none` when `exit(-1)` was called, and the world (the help text is printed before `exit`). -/
def parse_args (C : Collaborators Trace World) :
    List getopt_ret → argoptions_t → World → Option argoptions_t × World
  | [], options, w => (some options, w)
  | g :: rets, options, w =>
    if g.opt = -1 then (some options, w)
    else
      match parse_args_switch g.opt g.optarg options with
      | some options => parse_args C rets options w
      | none => (none, print_help C w)

/-- The function `int main(int argc, char *argv[])` of `rr_tool`.

`options0` is the default-constructed `argoptions_t options;` (its constructor is outside this
development), `rets` the returns of `getopt_long` for `argv`, `rc` the indeterminate value of the
uninitialised `int rc;` inside `DecoderCmdExec`.  The result is the exit status of the process,
whether `main` returned it or `exit` was called with it. -/
def main (C : Collaborators Trace World) (rets : List getopt_ret) (options0 : argoptions_t)
    (rc : Int) (w : World) : Option (Int × World) :=
  match parse_args C rets options0 w with
  | (none, w) => some (-1, w)
  | (some options, w) =>
    match options.cfg_type with
    | .CFG_RECORD => DecoderCmdExec C .record_bus_t options rc w
    | .CFG_VERIF => DecoderCmdExec C .validate_bus_t options rc w
    | .CFG_OTHER _ =>
      let w := C.fprintf_stderr "Invalid cfg type\n" w
      some (-1, w)

end

/-- A small concrete instance of `Collaborators`, used only as the concrete input where a theorem
below is instantiated: the world is a list of named files, a trace is the content of its file,
two traces compare equal when they are the same, and exporting adds a file. -/
def toyCollaborators : Collaborators (List Nat) (List (String × List Nat)) where
  parse_trace := fun _ path w =>
    match path with
    | none => none
    | some f => (w.lookup f).map (fun T => (T, w))
  gen_report := fun _ _ _ w => w
  gen_compare_report := fun _ T1 T2 _ _ w => (decide (T1 = T2), w)
  export_trace := fun _ path T w =>
    match path with
    | none => none
    | some f => some ((f, T) :: w)
  puts := fun _ w => w
  fprintf_stderr := fun _ w => w

/-- An `argoptions_t` with nothing selected, used as a concrete starting value. -/
def blankOptions : argoptions_t :=
  { cfg_type := .CFG_OTHER 0, op_type := .OP_OTHER 0, anlys_filepath := none,
    comp_filepaths := (none, none), input_filepath := none, output_filepath := none,
    isVerbose := false, enableHBVer2 := false }

end rr_tool

/-! ## `test_dram_dma.c` -/

namespace test_dram_dma

/-- The macro `#define MEM_16G (1ULL << 34)` -/
def MEM_16G : Nat := (1 <<< 34) % 2 ^ 64

/-- The macro `#define USER_INTERRUPTS_MAX (15)` -/
def USER_INTERRUPTS_MAX : Nat := 15

/-- The constant `const size_t buffer_size = 1ULL << 26; // 64MB` -/
def buffer_size : Nat := (1 <<< 26) % 2 ^ 64

/-- The value of `ENOMEM` in `<errno.h>` (Linux). -/
def ENOMEM : Int := 12

/-- The value of `PCI_BAR_HANDLE_INIT` in the SDK header `fpga_pci.h`. -/
def PCI_BAR_HANDLE_INIT : Int := -1

/-- The calls `test_dram_dma.c` makes to functions it does not define, with the arguments that
vary.  Pointers are integers (`0` is `NULL`); a logging call carries its format string, with `%s`
filled in where the argument is a string literal. -/
inductive Call where
  | printf (text : String)
  | sscanf_x (str : Option String)
  | log_init (name : String)
  | log_attach
  | log_info (text : String)
  | log_error (text : String)
  | fpga_mgmt_init
  | check_slot_config (slot_id : Int)
  | init_rr (slot_id : Int)
  | do_pre_rr
  | do_post_rr
  | is_replay
  | malloc (size : Nat)
  | free (ptr : Int)
  | close (fd : Int)
  | memset (ptr : Nat) (c : Int) (n : Nat)
  | fpga_dma_open_queue (slot_id : Int) (channel : Int) (is_read : Bool)
  | fill_buffer_urandom (buf : Int) (size : Nat)
  | fpga_dma_burst_write (fd : Int) (buffer : Int) (size : Nat) (address : Nat)
  | fpga_dma_burst_read (fd : Int) (buffer : Int) (size : Nat) (address : Nat)
  | buffer_compare (bufa bufb : Int) (size : Nat)
  | fpga_pci_attach (slot_id pf_id bar_id : Int) (flags : Nat)
  | fpga_pci_poke (handle : Int) (offset : Nat) (value : Nat)
  | fpga_pci_peek (handle : Int) (offset : Nat)
  | fpga_hugealloc_get
  | fpga_hugealloc_put (va : Nat)
  deriving DecidableEq, Repr

/-- What a call gives back: the returned value `ret` (a status, a file descriptor, a pointer, a
byte count) and the values `out` it stored through its pointer arguments, in argument order. -/
structure Resp where
  ret : Int
  out : List Nat
  deriving DecidableEq, Repr

/-- The transcript of a run: the outside calls made so far, oldest first, each with its answer. -/
abbrev Log := List (Call × Resp)

/-- The outside world: `env k c` is the answer when the call number `k` of the run (counting from
`0`) is `c`.  The program is sequential and deterministic, so every behaviour of a deterministic
platform is the behaviour under one such `env`. -/
abbrev Oracle := Nat → Call → Resp

/-- Make the outside call `c`: its answer, and the transcript extended by it. -/
def call (env : Oracle) (c : Call) (t : Log) : Resp × Log :=
  (env t.length c, t ++ [(c, env t.length c)])

/-- The macro `fail_on(CONDITION, LABEL, ...)` of the SDK: if the condition holds,
`log_error(...)` and `goto LABEL`; otherwise go on with `next`. -/
def fail_on {α : Type} (env : Oracle) (cond : Bool) (label : Log → α) (text : String)
    (next : Log → α) (t : Log) : α :=
  if cond then label (call env (.log_error text) t).2 else next t

/-- Reading of a 32-bit pattern as an `int`. -/
def int32 (v : Nat) : Int :=
  if v % 2 ^ 32 < 2 ^ 31 then (v % 2 ^ 32 : Nat) else (v % 2 ^ 32 : Nat) - 2 ^ 32

/-- The function `void usage(const char* program_name)`. -/
def usage (env : Oracle) (_program_name : Option String) (t : Log) : Log :=
  (call env (.printf "usage: %s [--slot <slot>]\n") t).2

/-- The label `out:` of `dma_example`: release what was obtained, then
`return (rc != 0 ? 1 : 0);`. -/
def dma_example_out (env : Oracle) (write_buffer read_buffer write_fd read_fd : Int) (rc : Int)
    (t : Log) : Int × Log :=
  let t := if write_buffer ≠ 0 then (call env (.free write_buffer) t).2 else t
  let t := if read_buffer ≠ 0 then (call env (.free read_buffer) t).2 else t
  let t := if write_fd ≥ 0 then (call env (.close write_fd) t).2 else t
  let t := if read_fd ≥ 0 then (call env (.close read_fd) t).2 else t
  (if rc ≠ 0 then 1 else 0, t)

/-- The first loop `for (dimm = 0; dimm < 4; dimm++)` of `dma_example`, with `k` iterations left,
so `dimm = 4 - k`.  The result is `some rc` when `fail_on` left for `out` with that `rc`, and
`none` when the loop ran to its end. -/
def dma_write_loop (env : Oracle) (write_fd write_buffer : Int) (buffer_size : Nat) :
    Nat → Log → Option Int × Log
  | 0, t => (none, t)
  | k + 1, t =>
    let dimm := 4 - (k + 1)
    let r := call env
      (.fpga_dma_burst_write write_fd write_buffer buffer_size ((dimm * MEM_16G) % 2 ^ 64)) t
    let rc := r.1.ret
    if rc ≠ 0 then (some rc, (call env (.log_error "DMA write failed on DIMM: %d") r.2).2)
    else dma_write_loop env write_fd write_buffer buffer_size k r.2

/-- The second loop `for (dimm = 0; dimm < 4; dimm++)` of `dma_example`, with `k` iterations
left and the current value of `passed`.  The result is `some rc` when `fail_on` left for `out`,
`none` when the loop ran to its end, together with the final `passed`. -/
def dma_read_loop (env : Oracle) (read_fd read_buffer write_buffer : Int) (buffer_size : Nat) :
    Nat → Bool → Log → (Option Int × Bool) × Log
  | 0, passed, t => ((none, passed), t)
  | k + 1, passed, t =>
    let dimm := 4 - (k + 1)
    let r := call env
      (.fpga_dma_burst_read read_fd read_buffer buffer_size ((dimm * MEM_16G) % 2 ^ 64)) t
    let rc := r.1.ret
    if rc ≠ 0 then
      ((some rc, passed), (call env (.log_error "DMA read failed on DIMM: %d") r.2).2)
    else
      let d := call env (.buffer_compare read_buffer write_buffer buffer_size) r.2
      let differ := d.1.ret
      if differ ≠ 0 then
        let t := (call env (.log_error "DIMM %d failed with %lu bytes which differ") d.2).2
        dma_read_loop env read_fd read_buffer write_buffer buffer_size k false t
      else
        let t := (call env (.log_info "DIMM %d passed!") d.2).2
        dma_read_loop env read_fd read_buffer write_buffer buffer_size k passed t

/-- The function `int dma_example(int slot_id, size_t buffer_size)`. -/
def dma_example (env : Oracle) (slot_id : Int) (buffer_size : Nat) (t : Log) : Int × Log :=
  let write_fd : Int := -1
  let read_fd : Int := -1
  let m1 := call env (.malloc buffer_size) t
  let write_buffer := m1.1.ret
  let m2 := call env (.malloc buffer_size) m1.2
  let read_buffer := m2.1.ret
  if write_buffer = 0 ∨ read_buffer = 0 then
    dma_example_out env write_buffer read_buffer write_fd read_fd (-ENOMEM) m2.2
  else
  let qr := call env (.fpga_dma_open_queue slot_id 0 true) m2.2
  let read_fd := qr.1.ret
  let rc : Int := if read_fd < 0 then -1 else 0
  fail_on env (rc != 0) (dma_example_out env write_buffer read_buffer write_fd read_fd rc)
    "unable to open read dma queue" (fun t =>
  let qw := call env (.fpga_dma_open_queue slot_id 0 false) t
  let write_fd := qw.1.ret
  let rc : Int := if write_fd < 0 then -1 else 0
  fail_on env (rc != 0) (dma_example_out env write_buffer read_buffer write_fd read_fd rc)
    "unable to open write dma queue" (fun t =>
  let f := call env (.fill_buffer_urandom write_buffer buffer_size) t
  let rc := f.1.ret
  fail_on env (rc != 0) (dma_example_out env write_buffer read_buffer write_fd read_fd rc)
    "unabled to initialize buffer" (fun t =>
  let w := dma_write_loop env write_fd write_buffer buffer_size 4 t
  match w.1 with
  | some rc => dma_example_out env write_buffer read_buffer write_fd read_fd rc w.2
  | none =>
    let r := dma_read_loop env read_fd read_buffer write_buffer buffer_size 4 true w.2
    match r.1.1 with
    | some rc => dma_example_out env write_buffer read_buffer write_fd read_fd rc r.2
    | none =>
      let rc : Int := if r.1.2 then 0 else 1
      dma_example_out env write_buffer read_buffer write_fd read_fd rc r.2) f.2) qw.2) qr.2

/-- The body of a "Poll for done" loop of `axi_mstr_ddr_access`, up to and including
`read_data = read_data & (0x2);`.  The result is `Sum.inl rc` when `fpga_pci_peek` failed and
`fail_on` left for `out` with that `rc`, and `Sum.inr read_data` (masked) otherwise. -/
def axi_poll_body (env : Oracle) (pci_bar_handle : Int) (ccr_offset : Nat) (t : Log) :
    (Int ⊕ Nat) × Log :=
  let p := call env (.fpga_pci_peek pci_bar_handle ccr_offset) t
  let rc := p.1.ret
  if rc ≠ 0 then
    (.inl rc, (call env (.log_error "Unable to read AXI Master CCR from the fpga !") p.2).2)
  else
    let read_data := (p.1.out.headD 0 % 2 ^ 32) &&& 0x2
    (.inr read_data, p.2)

/-- One "Poll for done" loop of `axi_mstr_ddr_access`,
`do ... poll_limit--; while (!read_data && poll_limit > 0);`, entered with the given
`poll_limit`: after the body `poll_limit` is one less, and the loop goes on when `read_data` is
zero and that value is positive.  The result is that of the last body run. -/
def axi_poll (env : Oracle) (pci_bar_handle : Int) (ccr_offset : Nat) :
    Nat → Log → (Int ⊕ Nat) × Log
  | 0, t => axi_poll_body env pci_bar_handle ccr_offset t
  | poll_limit + 1, t =>
    let b := axi_poll_body env pci_bar_handle ccr_offset t
    if b.1 = .inr 0 ∧ poll_limit > 0 then axi_poll env pci_bar_handle ccr_offset poll_limit b.2
    else b

/-- The function `int axi_mstr_ddr_access(int slot_id, pci_bar_handle_t pci_bar_handle,
uint32_t ddr_hi_addr, uint32_t ddr_lo_addr, uint32_t ddr_data)`. -/
def axi_mstr_ddr_access (env : Oracle) (_slot_id : Int) (pci_bar_handle : Int)
    (ddr_hi_addr ddr_lo_addr ddr_data : Nat) (t : Log) : Int × Log :=
  let ccr_offset : Nat := 0x500
  let cahr_offset : Nat := 0x504
  let calr_offset : Nat := 0x508
  let cwdr_offset : Nat := 0x50C
  let crdr_offset : Nat := 0x510
  let out (rc : Int) (t : Log) : Int × Log := (rc, t)
  let r := call env (.fpga_pci_poke pci_bar_handle cahr_offset ddr_hi_addr) t
  let rc := r.1.ret
  fail_on env (rc != 0) (out rc) "Unable to write to AXI Master CAHR register!" (fun t =>
  let r := call env (.fpga_pci_poke pci_bar_handle calr_offset ddr_lo_addr) t
  let rc := r.1.ret
  fail_on env (rc != 0) (out rc) "Unable to write to AXI Master CALR register!" (fun t =>
  let r := call env (.fpga_pci_poke pci_bar_handle cwdr_offset ddr_data) t
  let rc := r.1.ret
  fail_on env (rc != 0) (out rc) "Unable to write to AXI Master CWDR register!" (fun t =>
  let r := call env (.fpga_pci_poke pci_bar_handle ccr_offset 0x1) t
  let rc := r.1.ret
  fail_on env (rc != 0) (out rc) "Unable to write to AXI Master CCR register!" (fun t =>
  let p := axi_poll env pci_bar_handle ccr_offset 20 t
  match p.1 with
  | .inl rc => out rc p.2
  | .inr read_data =>
  let rc : Int := if read_data = 0 then 1 else 0
  fail_on env (rc != 0) (out rc)
    "AXI Master write to DDR did not complete. Done bit not set in CCR." (fun t =>
  let r := call env (.fpga_pci_poke pci_bar_handle ccr_offset 0x5) t
  let rc := r.1.ret
  fail_on env (rc != 0) (out rc) "Unable to write to AXI Master CCR register!" (fun t =>
  let p := axi_poll env pci_bar_handle ccr_offset 20 t
  match p.1 with
  | .inl rc => out rc p.2
  | .inr read_data =>
  let rc : Int := if read_data = 0 then 1 else 0
  fail_on env (rc != 0) (out rc)
    "AXI Master read from DDR did not complete. Done bit not set in CCR." (fun t =>
  let r := call env (.fpga_pci_peek pci_bar_handle crdr_offset) t
  let rc := r.1.ret
  fail_on env (rc != 0) (out rc) "Unable to read AXI Master CRDR from the fpga !" (fun t =>
  let read_data := r.1.out.headD 0 % 2 ^ 32
  if read_data = ddr_data then
    let t := (call env (.log_info
      "Resulting value at address 0x%x%x matched expected value 0x%x. It worked!") t).2
    out 0 t
  else
    let rc : Int := 1
    fail_on env (rc != 0) (out rc)
      ("Resulting value, 0x%x did not match expected value 0x%x at address 0x%x%x. " ++
        "Something didn't work.\n") (out rc) t) r.2) p.2) r.2) p.2) r.2) r.2) r.2) r.2

/-- The function `int axi_mstr_example(int slot_id)`. -/
def axi_mstr_example (env : Oracle) (slot_id : Int) (t : Log) : Int × Log :=
  let out (rc : Int) (t : Log) : Int × Log := (rc, t)
  let a := call env (.fpga_pci_attach slot_id 0 0 0) t
  let pci_bar_handle : Int :=
    match a.1.out.head? with
    | some h => int32 h
    | none => PCI_BAR_HANDLE_INIT
  let rc := a.1.ret
  fail_on env (rc != 0) (out rc) "Unable to attach to the AFI on slot id %d" (fun t =>
  let t := (call env (.log_info "Starting AXI Master to DDR test") t).2
  let r := axi_mstr_ddr_access env slot_id pci_bar_handle 0x00000001 0xA021F700 0xA5A61A2A t
  let rc := r.1
  fail_on env (rc != 0) (out rc) "Unable to access DDR A." (fun t =>
  let r := axi_mstr_ddr_access env slot_id pci_bar_handle 0x00000004 0x529C8400 0x1B80C948 t
  let rc := r.1
  fail_on env (rc != 0) (out rc) "Unable to access DDR B." (fun t =>
  let r := axi_mstr_ddr_access env slot_id pci_bar_handle 0x00000008 0x2078BC00 0x8BD18801 t
  let rc := r.1
  fail_on env (rc != 0) (out rc) "Unable to access DDR C." (fun t =>
  let r := axi_mstr_ddr_access env slot_id pci_bar_handle 0x0000000C 0xD0167700 0xCA02183D t
  let rc := r.1
  fail_on env (rc != 0) (out rc) "Unable to access DDR D." (out rc) r.2) r.2) r.2) r.2) a.2

/-- The final loop of `pcim_example`, `for (size_t i = 0; i < 128; ++i) log_info(...)`, with `k`
iterations left (`wr_burst * 512 / 8 / sizeof(uint32_t)` is `128`). -/
def pcim_log_loop (env : Oracle) : Nat → Log → Log
  | 0, t => t
  | k + 1, t => pcim_log_loop env k (call env (.log_info "PCIM example addr[%ld] = %x") t).2

/-- The label `free_huge:` of `pcim_example`: `fpga_hugealloc_put(va);`, then `out:` and
`return rc;`. -/
def pcim_free_huge (env : Oracle) (va : Nat) (rc : Int) (t : Log) : Int × Log :=
  (rc, (call env (.fpga_hugealloc_put va) t).2)

/-- The statement pair `rc = fpga_pci_poke(ocl_bar_handle, offset, value);
fail_on(rc, free_huge, text);` of `pcim_example`, followed by `next`. -/
def pcim_poke (env : Oracle) (ocl_bar_handle : Int) (va : Nat) (offset value : Nat)
    (text : String) (next : Log → Int × Log) (t : Log) : Int × Log :=
  let r := call env (.fpga_pci_poke ocl_bar_handle offset value) t
  let rc := r.1.ret
  fail_on env (rc != 0) (pcim_free_huge env va rc) text next r.2

/-- The function `int pcim_example(int slot_id, size_t buffer_size)`.

`tstcfg_val` is the 32-bit image `tstcfg.val` of the initialised `pcim_tst_cfg_t`, a bit-field
union whose layout is declared in `test_dram_dma_common.h`.  The
`assert((1 << wraddr_inc_shift) == sizeB_burst)` compares `512` with `512` and is left out. -/
def pcim_example (env : Oracle) (tstcfg_val : Nat) (slot_id : Int) (buffer_size : Nat)
    (t : Log) : Int × Log :=
  let out (rc : Int) (t : Log) : Int × Log := (rc, t)
  let a := call env (.fpga_pci_attach slot_id 0 0 0) t
  let ocl_bar_handle : Int :=
    match a.1.out.head? with
    | some h => int32 h
    | none => PCI_BAR_HANDLE_INIT
  let rc := a.1.ret
  fail_on env (rc != 0) (out rc) "Unable to attach to the OCL bar" (fun t =>
  let g := call env .fpga_hugealloc_get t
  let va : Nat := g.1.out.getD 0 0 % 2 ^ 64
  let pa : Nat := g.1.out.getD 1 0 % 2 ^ 64
  let sizeB : Nat := g.1.out.getD 2 0 % 2 ^ 64
  let rc := g.1.ret
  fail_on env (rc != 0) (out rc) "Unable to alloc hugepage" (fun t =>
  let poke := pcim_poke env ocl_bar_handle va
  let t := (call env (.log_info "PCIM example, host_mem: va %p, pa %p, buffer size %ld") t).2
  fail_on env (decide (buffer_size > sizeB)) (pcim_free_huge env va rc)
    "HugePageAlloc Too small" (fun t =>
  let t := (call env (.memset va 0 buffer_size) t).2
  poke 0x030 0 "Unable to poke 0x030" (fun t =>
  poke 0x010 1 "Unable to poke 0x010" (fun t =>
  poke 0x01c 0 "Unable to poke 0x01c" (fun t =>
  poke 0x020 (pa &&& 0xffffffff) "Unable to poke 0x020" (fun t =>
  poke 0x024 ((pa >>> 32) &&& 0xffffffff) "Unable to poke 0x024" (fun t =>
  poke 0x028 0x1234 "Unable to poke 0x028" (fun t =>
  let wr_burst : Nat := 8
  let sizeB_burst : Nat := (wr_burst * 64) % 2 ^ 32
  let wraddr_inc_shift : Nat := 9
  let t := if pa &&& ((1 <<< wraddr_inc_shift) - 1) ≠ 0 then
      (call env (.printf "Warning, pa is %#lx, shift mask is %#x, overlapping.\n") t).2
    else t
  let Nloop : Nat := (buffer_size / sizeB_burst) % 2 ^ 32
  poke 0x02c (wr_burst - 1) "Unable to poke 0x02c" (fun t =>
  poke 0x00 tstcfg_val "Unable to poke 0x00" (fun t =>
  poke 0xc0 Nloop "Unable to poke 0xc0" (fun t =>
  poke 0xc4 0x00 "Unable to poke 0xc4" (fun t =>
  poke 0x008 0x1 "Unable to poke 0x008" (fun t =>
  let t := pcim_log_loop env (wr_burst * 512 / 8 / 4) t
  pcim_free_huge env va 0 t) t) t) t) t) t) t) t) t) t) t) t) t) g.2) a.2

/-- The label `out:` of `main`: `log_info("TEST %s", ...)`, `do_post_rr()`, `return rc;`. -/
def main_out (env : Oracle) (rc : Int) (t : Log) : Int × Log :=
  let t := (call env (.log_info (if rc = 0 then "TEST PASSED" else "TEST FAILED")) t).2
  let t := (call env .do_post_rr t).2
  (rc, t)

/-- The part of `main` from `rc = init_rr(slot_id);` to the end. -/
def main_rr (env : Oracle) (tstcfg_val : Nat) (slot_id : Int) (t : Log) : Int × Log :=
  let r := call env (.init_rr slot_id) t
  let rc := r.1.ret
  let t := (call env .do_pre_rr r.2).2
  let p := call env .is_replay t
  fail_on env (p.1.ret != 0) (main_out env rc) "Skip application code, replaying" (fun t =>
  let r := dma_example env slot_id buffer_size t
  let rc := r.1
  fail_on env (rc != 0) (main_out env rc) "DMA example failed" (fun t =>
  let r := axi_mstr_example env slot_id t
  let rc := r.1
  fail_on env (rc != 0) (main_out env rc) "AXI Master example failed" (fun t =>
  let r := pcim_example env tstcfg_val slot_id buffer_size t
  let rc := r.1
  fail_on env (rc != 0) (main_out env rc) "PCIM example failed" (main_out env rc)
    r.2) r.2) r.2) p.2

/-- The part of `main` after the `switch (argc)`, from `rc = log_init("test_dram_dma");` on.
The call of `check_slot_config` and its `fail_on` stand under `#ifndef SV_TEST`. -/
def main_run (env : Oracle) (SV_TEST : Bool) (tstcfg_val : Nat) (slot_id : Int) (t : Log) :
    Int × Log :=
  let r := call env (.log_init "test_dram_dma") t
  let rc := r.1.ret
  fail_on env (rc != 0) (main_out env rc) "Unable to initialize the log." (fun t =>
  let r := call env .log_attach t
  let rc := r.1.ret
  fail_on env (rc != 0) (main_out env rc) "Unable to attach to the log." (fun t =>
  let r := call env .fpga_mgmt_init t
  let rc := r.1.ret
  fail_on env (rc != 0) (main_out env rc) "Unable to initialize the fpga_mgmt library" (fun t =>
  let t := (call env (.log_info "Checking to see if the right AFI is loaded...") t).2
  if SV_TEST then main_rr env tstcfg_val slot_id t
  else
    let r := call env (.check_slot_config slot_id) t
    let rc := r.1.ret
    fail_on env (rc != 0) (main_out env rc) "slot config is not correct"
      (main_rr env tstcfg_val slot_id) r.2) r.2) r.2) r.2

/-- The function `int main(int argc, char **argv)` of `test_dram_dma`, for `argc = argv.length`.

`SV_TEST` says whether the macro of that name is defined; `tstcfg_val` is passed on to
`pcim_example`.  The loop over `interrupt_n` only sets `rc = 0` (the call of `interrupt_example`
is commented out), so its `fail_on` never fires and it is left out. -/
def main (env : Oracle) (SV_TEST : Bool) (tstcfg_val : Nat) (argv : List String) (t : Log) :
    Int × Log :=
  let argc := argv.length
  if argc ≠ 1 ∧ argc ≠ 3 then
    (1, usage env argv.head? t)
  else
  let s := if argc = 3 then
      let r := call env (.sscanf_x (argv.get? 2)) t
      ((if r.1.ret = 1 then int32 (r.1.out.headD 0) else 0), r.2)
    else ((0 : Int), t)
  let slot_id : Int := s.1
  main_run env SV_TEST tstcfg_val slot_id s.2

/-- The name of the function a call goes to. -/
def Call.name : Call → String
  | .printf _ => "printf"
  | .sscanf_x _ => "sscanf"
  | .log_init _ => "log_init"
  | .log_attach => "log_attach"
  | .log_info _ => "log_info"
  | .log_error _ => "log_error"
  | .fpga_mgmt_init => "fpga_mgmt_init"
  | .check_slot_config _ => "check_slot_config"
  | .init_rr _ => "init_rr"
  | .do_pre_rr => "do_pre_rr"
  | .do_post_rr => "do_post_rr"
  | .is_replay => "is_replay"
  | .malloc _ => "malloc"
  | .free _ => "free"
  | .close _ => "close"
  | .memset _ _ _ => "memset"
  | .fpga_dma_open_queue _ _ _ => "fpga_dma_open_queue"
  | .fill_buffer_urandom _ _ => "fill_buffer_urandom"
  | .fpga_dma_burst_write _ _ _ _ => "fpga_dma_burst_write"
  | .fpga_dma_burst_read _ _ _ _ => "fpga_dma_burst_read"
  | .buffer_compare _ _ _ => "buffer_compare"
  | .fpga_pci_attach _ _ _ _ => "fpga_pci_attach"
  | .fpga_pci_poke _ _ _ => "fpga_pci_poke"
  | .fpga_pci_peek _ _ => "fpga_pci_peek"
  | .fpga_hugealloc_get => "fpga_hugealloc_get"
  | .fpga_hugealloc_put _ => "fpga_hugealloc_put"

/-- The calls of a transcript that went to the function `name`, oldest first. -/
def callsTo (name : String) (t : Log) : List (Call × Resp) :=
  t.filter (fun e => e.1.name = name)

/-- The values the calls of `name` returned in a transcript, oldest first. -/
def returned (name : String) (t : Log) : List Int :=
  (callsTo name t).map (fun e => e.2.ret)

/-- A platform used only as the concrete input where a theorem below is instantiated: `malloc`
gives a non-null pointer, `fpga_dma_open_queue` the descriptor 3, `init_rr` returns 7,
`is_replay` answers 1, and every other call returns 0 and stores nothing. -/
def toyPlatform : Oracle := fun _ c =>
  match c with
  | .malloc _ => { ret := 4096, out := [] }
  | .fpga_dma_open_queue _ _ _ => { ret := 3, out := [] }
  | .init_rr _ => { ret := 7, out := [] }
  | .is_replay => { ret := 1, out := [] }
  | _ => { ret := 0, out := [] }

/-- A platform used only as the concrete input where a theorem below is instantiated:
`fpga_hugealloc_get` succeeds and stores `va = 1000`, `pa = 0x200`, `sizeB = 16`; every other
call returns 0 and stores nothing. -/
def smallHugePlatform : Oracle := fun _ c =>
  match c with
  | .fpga_hugealloc_get => { ret := 0, out := [1000, 0x200, 16] }
  | _ => { ret := 0, out := [] }

/-- A platform used only as the concrete input where a theorem below is instantiated: every
`fpga_pci_peek` succeeds and reads 0 (bit `0x2` clear); every other call returns 0 and stores
nothing. -/
def neverDonePlatform : Oracle := fun _ c =>
  match c with
  | .fpga_pci_peek _ _ => { ret := 0, out := [0] }
  | _ => { ret := 0, out := [] }

/-- A platform used only as the concrete input where a theorem below is instantiated: the outside
call number 6 (counting from 0), if it is a `fpga_pci_peek`, reads `0x2`; every other
`fpga_pci_peek` reads 0; every call returns 0. -/
def doneOncePlatform : Oracle := fun k c =>
  match c with
  | .fpga_pci_peek _ _ => if k = 6 then { ret := 0, out := [0x2] } else { ret := 0, out := [0] }
  | _ => { ret := 0, out := [] }

end test_dram_dma

/-! ## The decoder and the encoder, from the specification

`cl_fpgarr_decoder.hpp` and `cl_fpgarr_encoder.hpp` are not part of this development.  What
`Decoder::parse_trace` and `Encoder::export_trace` do is taken from the specification (sections 3,
4.1 and 4.3) and kept generic in the bus profile, whose record layout the specification leaves to
the profile. -/

namespace rr_tool

/-- A byte of a trace file. -/
abbrev Byte := Fin 256

/-- Modelled from the spec: the Transaction Event of section 3, the unit `Decoder::parse_trace`
(not in this development) produces: `channel`, `kind`, `sequence` (the position of the record in
the raw buffer) and the decoded `fields`. -/
structure Event where
  channel : Nat
  kind : Nat
  sequence : Nat
  fields : List Nat
  deriving DecidableEq, Repr

/-- Modelled from the spec: the Bus Configuration Profile of section 3, i.e. what
`cl_fpgarr_buscfg.hpp` (not in this development) fixes for `record_bus_t` and `validate_bus_t`:
the ordered set of channel identifiers, how the channel of a record is recovered from its
position and content (`channelOf`), and the field layout of a record of each channel, read
(`decodeFields`, `none` for an opcode or kind outside the known set) and written (`encodeFields`,
`none` when a field exceeds its bit width). -/
structure Profile where
  channels : List Nat
  channelOf : Nat → List Byte → Option Nat
  decodeFields : Nat → List Byte → Option (Nat × List Nat)
  encodeFields : Nat → Nat → List Nat → Option (List Byte)

/-- Modelled from the spec: the Trace of section 3 (`VIDITrace`, not in this development): one
ordered sequence of events per channel of the profile, in profile order, and the record count. -/
structure Trace where
  events : List (Nat × List Event)
  recordCount : Nat
  deriving DecidableEq, Repr

/-- Modelled from the spec: the raw buffer as "a flat concatenation of fixed-size records (8
bytes each)": record `i` is bytes `8 * i` to `8 * i + 7`. -/
def records (bytes : List Byte) : List (List Byte) :=
  (List.range (bytes.length / cl_fpgarr.TRACE_LEN_BYTES)).map
    (fun i => (bytes.drop (cl_fpgarr.TRACE_LEN_BYTES * i)).take cl_fpgarr.TRACE_LEN_BYTES)

/-- Modelled from the spec: decoding of the record at position `i` (section 4.1): the profile
gives its channel, which must be one of the profile, then its fields; the event takes the
position as `sequence`.  The result `none` is `MalformedTrace`. -/
def decodeRecord (p : Profile) (i : Nat) (r : List Byte) : Option Event :=
  match p.channelOf i r with
  | none => none
  | some c =>
    if c ∈ p.channels then
      match p.decodeFields c r with
      | none => none
      | some kf => some { channel := c, kind := kf.1, sequence := i, fields := kf.2 }
    else none

/-- Modelled from the spec: decoding of the records from position `i` on, in order; one record
that does not decode fails the whole decode ("never silently truncated or skipped"). -/
def decodeAll (p : Profile) : Nat → List (List Byte) → Option (List Event)
  | _, [] => some []
  | i, r :: rs =>
    match decodeRecord p i r with
    | none => none
    | some e =>
      match decodeAll p (i + 1) rs with
      | none => none
      | some es => some (e :: es)

/-- Modelled from the spec: the Decoder of section 4.1 (`Decoder::parse_trace`, not in this
development).  It fails when the length is not a multiple of the record size or a record does
not decode; otherwise every channel of the profile gets its events, in buffer order. -/
def decode (p : Profile) (bytes : List Byte) : Option Trace :=
  if bytes.length % cl_fpgarr.TRACE_LEN_BYTES ≠ 0 then none
  else
    match decodeAll p 0 (records bytes) with
    | none => none
    | some evs =>
      some { events := p.channels.map (fun c => (c, evs.filter (fun e => e.channel = c))),
             recordCount := evs.length }

/-- Modelled from the spec: encoding of one event (section 4.3) by the layout of its channel;
`none` is `EncodingOverflow`, also when the layout does not give a record of 8 bytes. -/
def encodeRecord (p : Profile) (e : Event) : Option (List Byte) :=
  match p.encodeFields e.channel e.kind e.fields with
  | none => none
  | some r => if r.length = cl_fpgarr.TRACE_LEN_BYTES then some r else none

/-- Modelled from the spec: encoding of a list of events, in order; one overflow fails all. -/
def encodeAll (p : Profile) : List Event → Option (List (List Byte))
  | [] => some []
  | e :: es =>
    match encodeRecord p e with
    | none => none
    | some r =>
      match encodeAll p es with
      | none => none
      | some rs => some (r :: rs)

/-- Modelled from the spec: the Encoder of section 4.3 (`Encoder::export_trace`, not in this
development): the events of all channels are brought back into the interleaved buffer order,
which is the order of their `sequence`, each channel keeping its recorded order, and written
record by record. -/
def encode (p : Profile) (t : Trace) : Option (List Byte) :=
  let evs := (t.events.flatMap (fun ce => ce.2)).insertionSort
    (fun a b => a.sequence ≤ b.sequence)
  match encodeAll p evs with
  | none => none
  | some rs => some rs.flatten

/-- Modelled from the spec: what section 4.3 asks of a profile's record layout, "encoding is the
exact inverse of decoding": the channels form a set, and an event decoded from an 8-byte record
at position `i` encodes without overflow to a record that decodes, at `i`, to the same event. -/
def Profile.WellFormed (p : Profile) : Prop :=
  p.channels.Nodup ∧
  ∀ (i : Nat) (r : List Byte) (e : Event), r.length = cl_fpgarr.TRACE_LEN_BYTES →
    decodeRecord p i r = some e →
    ∃ r', encodeRecord p e = some r' ∧ decodeRecord p i r' = some e

/-- The files of the world `rr_tool` runs in: the content of each file that exists. -/
abbrev Files := String → Option (List Byte)

/-- Modelled from the spec: the collaborators of `cl_fpgarr_main.cpp` with the decoder and the
encoder above, over a world of files: `parse_trace` decodes the content of the named file,
`export_trace` writes the encoding of the trace to the named file.  The comparator and the
report (section 4.2) are not modelled: the verdict `compare` is a parameter and printed text is
dropped. -/
def specCollaborators (profile : BUSCFG → Profile)
    (compare : BUSCFG → Trace → Trace → Bool → Bool → Bool) : Collaborators Trace Files where
  parse_trace := fun cfg path w =>
    match path with
    | none => none
    | some f =>
      match w f with
      | none => none
      | some bytes =>
        match decode (profile cfg) bytes with
        | none => none
        | some T => some (T, w)
  gen_report := fun _ _ _ w => w
  gen_compare_report := fun cfg T1 T2 verbose hbver2 w => (compare cfg T1 T2 verbose hbver2, w)
  export_trace := fun cfg path T w =>
    match path with
    | none => none
    | some f =>
      match encode (profile cfg) T with
      | none => none
      | some bytes => some (fun g => if g = f then some bytes else w g)
  puts := fun _ w => w
  fprintf_stderr := fun _ w => w

/-- A profile used only as the concrete input where a theorem below is instantiated: one
channel `0`, every record belongs to it, its kind is `0` and its fields are its eight bytes. -/
def toyProfile : Profile where
  channels := [0]
  channelOf := fun _ _ => some 0
  decodeFields := fun _ r => some (0, r.map (fun b => b.val))
  encodeFields := fun _ _ f => some (f.map (fun x => (Fin.ofNat x : Fin 256)))

end rr_tool

/-! ## Properties of `rr_tool` -/

namespace rr_tool

section
variable {Trace World : Type}

/-- C1: for the compare action, `DecoderCmdExec` returns `0` when `gen_compare_report` reports
the two decoded traces equivalent (`true`) and `1` when it reports them not equivalent (`false`),
for either bus profile and every value of the verbose and hbver2 flags. -/
theorem DecoderCmdExec_compare (C : Collaborators Trace World) (cfg : BUSCFG)
    (options : argoptions_t) (rc : Int) (w w1 w2 : World) (T1 T2 : Trace)
    (hop : options.op_type = .OP_COMP)
    (h1 : C.parse_trace cfg options.comp_filepaths.1 w = some (T1, w1))
    (h2 : C.parse_trace cfg options.comp_filepaths.2 w1 = some (T2, w2)) :
    ((C.gen_compare_report cfg T1 T2 options.isVerbose options.enableHBVer2 w2).1 = true →
      DecoderCmdExec C cfg options rc w = some (0,
        (C.gen_compare_report cfg T1 T2 options.isVerbose options.enableHBVer2 w2).2)) ∧
    ((C.gen_compare_report cfg T1 T2 options.isVerbose options.enableHBVer2 w2).1 = false →
      DecoderCmdExec C cfg options rc w = some (1,
        (C.gen_compare_report cfg T1 T2 options.isVerbose options.enableHBVer2 w2).2)) := by
  constructor <;> intro hb <;> simp [DecoderCmdExec, hop, h1, h2, hb]

/-- Witness for `DecoderCmdExec_compare`: comparing a file with a different one gives `1`. -/
theorem DecoderCmdExec_compare_witness :
    DecoderCmdExec toyCollaborators .validate_bus_t
      { blankOptions with op_type := .OP_COMP, comp_filepaths := (some "a", some "b") } 7
      [("a", [1, 2]), ("b", [1, 3])] = some (1, [("a", [1, 2]), ("b", [1, 3])]) :=
  (DecoderCmdExec_compare toyCollaborators .validate_bus_t
    { blankOptions with op_type := .OP_COMP, comp_filepaths := (some "a", some "b") } 7
    [("a", [1, 2]), ("b", [1, 3])] [("a", [1, 2]), ("b", [1, 3])] [("a", [1, 2]), ("b", [1, 3])]
    [1, 2] [1, 3] rfl (by decide) (by decide)).2 (by decide)

/-- C2 (the code departs from the claim): for the analyze action on a file that decodes,
`DecoderCmdExec` returns the value its local `rc` happened to hold, because the `OP_ANLYS` branch
never assigns it; with `1` in that slot the result is `1`, not `0`. -/
theorem DecoderCmdExec_analyze_returns_uninitialised_rc :
    (∀ (C : Collaborators Trace World) (cfg : BUSCFG) (options : argoptions_t) (rc : Int)
      (w : World),
      DecoderCmdExec C cfg { options with op_type := .OP_ANLYS } rc w =
        (C.parse_trace cfg options.anlys_filepath w).map
          (fun r => (rc, C.gen_report cfg r.1 options.isVerbose r.2))) ∧
    DecoderCmdExec toyCollaborators .record_bus_t
      { blankOptions with cfg_type := .CFG_RECORD, op_type := .OP_ANLYS,
                          anlys_filepath := some "trace.dump" } 1
      [("trace.dump", [1, 2])] = some (1, [("trace.dump", [1, 2])]) := by
  refine ⟨?_, by decide⟩
  intro C cfg options rc w
  simp only [DecoderCmdExec]
  cases C.parse_trace cfg options.anlys_filepath w <;> rfl

/-- C4 (the code departs from the claim): `case 'o':` has no `break`, so `-m in.dump -o out.dump`
leaves `enableHBVer2` true although `getopt_long` never returned `OPT_HBVER2`. -/
theorem parse_args_o_sets_enableHBVer2 (C : Collaborators Trace World) (w : World) :
    blankOptions.enableHBVer2 = false ∧
    (∀ g ∈ [getopt_ret.mk ('r').toNat none, getopt_ret.mk ('m').toNat (some "in.dump"),
        getopt_ret.mk ('o').toNat (some "out.dump")], g.opt ≠ OPT_HBVER2) ∧
    (parse_args C [getopt_ret.mk ('r').toNat none, getopt_ret.mk ('m').toNat (some "in.dump"),
        getopt_ret.mk ('o').toNat (some "out.dump")] blankOptions w).1 =
      some { blankOptions with cfg_type := .CFG_RECORD, op_type := .OP_MUTATE,
                               input_filepath := some "in.dump",
                               output_filepath := some "out.dump", enableHBVer2 := true } := by
  refine ⟨rfl, by decide, ?_⟩
  simp [parse_args, parse_args_switch, blankOptions, OPT_HBVER2]

/-- C5: once `parse_args` has returned, `main` answers an unknown `cfg_type` with `-1` after
printing "Invalid cfg type" and nothing else (no decoder runs); for `CFG_RECORD` it is
`DecoderCmdExec<record_bus_t>`, for `CFG_VERIF` it is `DecoderCmdExec<validate_bus_t>`, and in
both cases `main` returns exactly what `DecoderCmdExec` returned. -/
theorem main_dispatch_on_cfg_type (C : Collaborators Trace World) (rets : List getopt_ret)
    (options0 options : argoptions_t) (rc : Int) (w w1 : World)
    (hparse : parse_args C rets options0 w = (some options, w1)) :
    (options.cfg_type ≠ .CFG_RECORD → options.cfg_type ≠ .CFG_VERIF →
      main C rets options0 rc w = some (-1, C.fprintf_stderr "Invalid cfg type\n" w1)) ∧
    (options.cfg_type = .CFG_RECORD →
      main C rets options0 rc w = DecoderCmdExec C .record_bus_t options rc w1) ∧
    (options.cfg_type = .CFG_VERIF →
      main C rets options0 rc w = DecoderCmdExec C .validate_bus_t options rc w1) := by
  refine ⟨?_, ?_, ?_⟩
  · intro h1 h2
    simp only [main, hparse]
    cases hc : options.cfg_type with
    | CFG_RECORD => exact absurd hc h1
    | CFG_VERIF => exact absurd hc h2
    | CFG_OTHER n => rfl
  · intro h
    simp only [main, hparse, h]
  · intro h
    simp only [main, hparse, h]

/-- Witness for `main_dispatch_on_cfg_type`: a command line with no `-r` and no `-v`, started
from options whose `cfg_type` is neither, ends with `-1` and decodes nothing. -/
theorem main_dispatch_on_cfg_type_witness :
    main toyCollaborators [getopt_ret.mk ('a').toNat (some "t")] blankOptions 0 [("t", [1])] =
      some (-1, [("t", [1])]) :=
  (main_dispatch_on_cfg_type toyCollaborators [getopt_ret.mk ('a').toNat (some "t")] blankOptions
    { blankOptions with op_type := .OP_ANLYS, anlys_filepath := some "t" } 0 [("t", [1])]
    [("t", [1])] (by decide)).1 (by decide) (by decide)


/-- The values of `opt` for which the `switch` of `parse_args` has a `case`. -/
theorem parse_args_switch_isSome (opt : Int) (optarg : Option String) (o : argoptions_t)
    (h : opt ∈ [(('r').toNat : Int), ('v').toNat, ('a').toNat, ('c').toNat, ('d').toNat,
      ('m').toNat, ('o').toNat, OPT_HBVER2]) :
    opt ≠ -1 ∧ ∃ o1, parse_args_switch opt optarg o = some o1 ∧
      (opt ≠ ('a').toNat → opt ≠ ('c').toNat → opt ≠ ('m').toNat → o1.op_type = o.op_type) ∧
      (opt = ('c').toNat → o1.op_type = .OP_COMP) ∧
      (opt ≠ ('c').toNat → o1.comp_filepaths = o.comp_filepaths) ∧
      (opt = ('c').toNat → o.comp_filepaths.1 = none →
        o1.comp_filepaths = (optarg, o.comp_filepaths.2)) ∧
      (opt = ('c').toNat → o.comp_filepaths.1 ≠ none →
        o1.comp_filepaths = (o.comp_filepaths.1, optarg)) := by
  simp only [List.mem_cons, List.mem_singleton, List.mem_nil_iff, or_false] at h
  rcases h with h | h | h | h | h | h | h | h <;> subst h <;>
    simp [parse_args_switch, OPT_HBVER2]
  by_cases hn : o.comp_filepaths.1 = none <;> simp [hn]


theorem parse_args_append (C : Collaborators Trace World) (pre : List getopt_ret)
    (hrec : ∀ g ∈ pre, g.opt ∈ [(('r').toNat : Int), ('v').toNat, ('a').toNat, ('c').toNat,
      ('d').toNat, ('m').toNat, ('o').toNat, OPT_HBVER2]) :
    ∀ (o : argoptions_t) (w : World), ∃ o1, parse_args C pre o w = (some o1, w) ∧
      ∀ post, parse_args C (pre ++ post) o w = parse_args C post o1 w := by
  induction pre with
  | nil => intro o w; exact ⟨o, rfl, fun _ => rfl⟩
  | cons g pre ih =>
    intro o w
    obtain ⟨hne, o1, hsw, -⟩ :=
      parse_args_switch_isSome g.opt g.optarg o (hrec g (List.mem_cons_self _ _))
    obtain ⟨o2, h2, hpost⟩ := ih (fun x hx => hrec x (List.mem_cons_of_mem _ hx)) o1 w
    refine ⟨o2, ?_, fun post => ?_⟩
    · simp [parse_args, hne, hsw, h2]
    · simp [parse_args, hne, hsw, hpost]

/-- Options other than `-a`, `-c`, `-m` leave `op_type` alone. -/
theorem parse_args_keeps_op_type (C : Collaborators Trace World) (rets : List getopt_ret)
    (hrec : ∀ g ∈ rets, g.opt ∈ [(('r').toNat : Int), ('v').toNat, ('a').toNat, ('c').toNat,
      ('d').toNat, ('m').toNat, ('o').toNat, OPT_HBVER2])
    (hsel : ∀ g ∈ rets, g.opt ≠ ('a').toNat ∧ g.opt ≠ ('c').toNat ∧ g.opt ≠ ('m').toNat) :
    ∀ (o o1 : argoptions_t) (w w1 : World), parse_args C rets o w = (some o1, w1) →
      o1.op_type = o.op_type := by
  induction rets with
  | nil => intro o o1 w w1 h; simp [parse_args] at h; rw [← h.1]
  | cons g rets ih =>
    intro o o1 w w1 h
    obtain ⟨hne, o2, hsw, hop, -⟩ :=
      parse_args_switch_isSome g.opt g.optarg o (hrec g (List.mem_cons_self _ _))
    have hg := hsel g (List.mem_cons_self _ _)
    simp only [parse_args, hne, if_false, hsw] at h
    rw [ih (fun x hx => hrec x (List.mem_cons_of_mem _ hx))
      (fun x hx => hsel x (List.mem_cons_of_mem _ hx)) o2 o1 w w1 h]
    exact hop hg.1 hg.2.1 hg.2.2

/-- The `-c` arguments, once `comp_filepaths[0]` is set: slot `0` stays, slot `1` takes the last
argument. -/
theorem parse_args_comp_second (C : Collaborators Trace World) (rets : List getopt_ret)
    (hrec : ∀ g ∈ rets, g.opt ∈ [(('r').toNat : Int), ('v').toNat, ('a').toNat, ('c').toNat,
      ('d').toNat, ('m').toNat, ('o').toNat, OPT_HBVER2]) :
    ∀ (files : List String) (o o1 : argoptions_t) (w w1 : World),
      (rets.filter (fun g : getopt_ret => g.opt = (('c').toNat : Int))).map (fun g => g.optarg) =
        files.map some →
      o.comp_filepaths.1 ≠ none →
      parse_args C rets o w = (some o1, w1) →
      o1.comp_filepaths =
        (o.comp_filepaths.1, if files = [] then o.comp_filepaths.2 else files.getLast?) := by
  induction rets with
  | nil =>
    intro files o o1 w w1 hc _ h
    simp [parse_args] at h
    have : files = [] := by simpa using hc.symm
    simp [this, ← h.1]
  | cons g rets ih =>
    intro files o o1 w w1 hc hne0 h
    obtain ⟨hne, o2, hsw, -, -, hkeep, -, hset⟩ :=
      parse_args_switch_isSome g.opt g.optarg o (hrec g (List.mem_cons_self _ _))
    simp only [parse_args, hne, if_false, hsw] at h
    have hrec' := fun x hx => hrec x (List.mem_cons_of_mem g hx)
    by_cases hg : g.opt = ('c').toNat
    · have h2 := hset hg hne0
      cases files with
      | nil => simp [hg] at hc
      | cons f fs =>
        simp [hg] at hc
        have hne2 : o2.comp_filepaths.1 ≠ none := by rw [h2]; exact hne0
        rw [ih hrec' fs o2 o1 w w1 (by simpa using hc.2) hne2 h, h2]
        cases fs with
        | nil => simp [hc.1]
        | cons f2 fs2 => simp [List.getLast?_cons_cons]
    · have h2 := hkeep hg
      have hg99 : ¬ g.opt = 99 := by simpa using hg
      rw [ih hrec' files o2 o1 w w1 (by simpa [List.filter_cons, hg99] using hc)
        (by rw [h2]; exact hne0) h, h2]


/-- The `-c` arguments, starting with `comp_filepaths[0]` null: slot `0` takes the first
argument, slot `1` the last of the later ones. -/
theorem parse_args_comp_first (C : Collaborators Trace World) (rets : List getopt_ret)
    (hrec : ∀ g ∈ rets, g.opt ∈ [(('r').toNat : Int), ('v').toNat, ('a').toNat, ('c').toNat,
      ('d').toNat, ('m').toNat, ('o').toNat, OPT_HBVER2]) :
    ∀ (files : List String) (o o1 : argoptions_t) (w w1 : World),
      (rets.filter (fun g : getopt_ret => g.opt = (('c').toNat : Int))).map (fun g => g.optarg) =
        files.map some →
      o.comp_filepaths.1 = none →
      parse_args C rets o w = (some o1, w1) →
      o1.comp_filepaths =
        match files with
        | [] => o.comp_filepaths
        | f :: fs => (some f, if fs = [] then o.comp_filepaths.2 else fs.getLast?) := by
  induction rets with
  | nil =>
    intro files o o1 w w1 hc _ h
    simp [parse_args] at h
    have : files = [] := by simpa using hc.symm
    simp [this, ← h.1]
  | cons g rets ih =>
    intro files o o1 w w1 hc hnone h
    obtain ⟨hne, o2, hsw, -, -, hkeep, hset, -⟩ :=
      parse_args_switch_isSome g.opt g.optarg o (hrec g (List.mem_cons_self _ _))
    simp only [parse_args, hne, if_false, hsw] at h
    have hrec' := fun x hx => hrec x (List.mem_cons_of_mem g hx)
    by_cases hg : g.opt = ('c').toNat
    · have h2 := hset hg hnone
      cases files with
      | nil => simp [hg] at hc
      | cons f fs =>
        simp [hg] at hc
        have hne2 : o2.comp_filepaths.1 ≠ none := by rw [h2]; simp [hc.1]
        rw [parse_args_comp_second C rets hrec' fs o2 o1 w w1 (by simpa using hc.2) hne2 h, h2]
        simp [hc.1]
    · have h2 := hkeep hg
      have hg99 : ¬ g.opt = 99 := by simpa using hg
      rw [ih hrec' files o2 o1 w w1 (by simpa [List.filter_cons, hg99] using hc)
        (by rw [h2]; exact hnone) h, h2]

/-- C6: compare takes two files in order.  For a command line made of the options of the tool
whose `-c` arguments are, in order, `files` (at least two), started with both `comp_filepaths`
null, `parse_args` returns with `comp_filepaths[0]` the first and `comp_filepaths[1]` the last
`-c` argument; with exactly two the pair is `(FILE1, FILE2)`; and `op_type` is `OP_COMP` when no
`-a`, `-m` (or further `-c`) follows the last `-c`. -/
theorem parse_args_compare_files (C : Collaborators Trace World) (rets : List getopt_ret)
    (options0 : argoptions_t) (w : World) (files : List String)
    (hrec : ∀ g ∈ rets, g.opt ∈ [(('r').toNat : Int), ('v').toNat, ('a').toNat, ('c').toNat,
      ('d').toNat, ('m').toNat, ('o').toNat, OPT_HBVER2])
    (hnull : options0.comp_filepaths = (none, none))
    (hc : (rets.filter (fun g : getopt_ret => g.opt = (('c').toNat : Int))).map
      (fun g => g.optarg) = files.map some)
    (hn : 2 ≤ files.length) :
    ∃ options, parse_args C rets options0 w = (some options, w) ∧
      options.comp_filepaths = (files.head?, files.getLast?) ∧
      (∀ f1 f2, files = [f1, f2] → options.comp_filepaths = (some f1, some f2)) ∧
      (∀ (pre : List getopt_ret) (g : getopt_ret) (post : List getopt_ret),
        rets = pre ++ g :: post → g.opt = ('c').toNat →
        (∀ h ∈ post, h.opt ≠ ('a').toNat ∧ h.opt ≠ ('c').toNat ∧ h.opt ≠ ('m').toNat) →
        options.op_type = .OP_COMP) := by
  obtain ⟨options, hp, -⟩ := parse_args_append C rets hrec options0 w
  have hcomp : options.comp_filepaths = (files.head?, files.getLast?) := by
    rw [parse_args_comp_first C rets hrec files options0 options w w hc (by rw [hnull]) hp]
    match files, hn with
    | f1 :: f2 :: fs, _ => simp [hnull, List.getLast?_cons_cons]
  refine ⟨options, hp, hcomp, ?_, ?_⟩
  · intro f1 f2 hf
    rw [hcomp, hf]; rfl
  · intro pre g post hsplit hg hpost
    subst hsplit
    have hrpre : ∀ x ∈ pre, _ := fun x hx => hrec x (List.mem_append_left _ hx)
    have hrg := hrec g (List.mem_append_right _ (List.mem_cons_self _ _))
    have hrpost : ∀ x ∈ post, _ :=
      fun x hx => hrec x (List.mem_append_right _ (List.mem_cons_of_mem _ hx))
    obtain ⟨o1, -, happ⟩ := parse_args_append C pre hrpre options0 w
    obtain ⟨hne, o2, hsw, -, hop, -⟩ := parse_args_switch_isSome g.opt g.optarg o1 hrg
    have h3 : parse_args C post o2 w = (some options, w) := by
      rw [← hp, happ (g :: post)]
      simp only [parse_args, hne, if_false, hsw]
    rw [parse_args_keeps_op_type C post hrpost hpost o2 options w w h3]
    exact hop hg

/-- Witness for `parse_args_compare_files`: `-r -c a.dump -d -c b.dump -c c.dump`. -/
theorem parse_args_compare_files_witness :
    ∃ options, parse_args toyCollaborators
        [getopt_ret.mk ('r').toNat none, getopt_ret.mk ('c').toNat (some "a.dump"),
         getopt_ret.mk ('d').toNat none, getopt_ret.mk ('c').toNat (some "b.dump"),
         getopt_ret.mk ('c').toNat (some "c.dump")] blankOptions [] = (some options, []) ∧
      options.comp_filepaths = (some "a.dump", some "c.dump") :=
  have h := parse_args_compare_files toyCollaborators
    [getopt_ret.mk ('r').toNat none, getopt_ret.mk ('c').toNat (some "a.dump"),
     getopt_ret.mk ('d').toNat none, getopt_ret.mk ('c').toNat (some "b.dump"),
     getopt_ret.mk ('c').toNat (some "c.dump")] blankOptions []
    ["a.dump", "b.dump", "c.dump"] (by decide) rfl (by decide) (by decide)
  h.imp fun _ hx => ⟨hx.1, hx.2.1⟩

end
end rr_tool

/-! ## Properties of `cl_fpgarr.h` -/

namespace cl_fpgarr

/-- C8: the capture-buffer constants: `TRACE_LEN_BYTES` is 8, `BUFFER_ALIGNMENT` is 4096,
`DEFAULT_BUFFER_SIZE` is `2^30` bytes (1 GiB) without `SV_TEST` and `0x8000000 = 2^27` bytes
(128 MiB) with it, and in both configurations it is an exact multiple of `BUFFER_ALIGNMENT` and
of `TRACE_LEN_BYTES`. -/
theorem buffer_constants :
    TRACE_LEN_BYTES = 8 ∧ BUFFER_ALIGNMENT = 4096 ∧
    DEFAULT_BUFFER_SIZE false = 2 ^ 30 ∧ DEFAULT_BUFFER_SIZE false = 1024 * 1024 * 1024 ∧
    DEFAULT_BUFFER_SIZE true = 0x8000000 ∧ DEFAULT_BUFFER_SIZE true = 2 ^ 27 ∧
    DEFAULT_BUFFER_SIZE true = 128 * 1024 * 1024 ∧
    ∀ SV_TEST : Bool, DEFAULT_BUFFER_SIZE SV_TEST % BUFFER_ALIGNMENT = 0 ∧
      DEFAULT_BUFFER_SIZE SV_TEST % TRACE_LEN_BYTES = 0 ∧
      DEFAULT_BUFFER_SIZE SV_TEST / TRACE_LEN_BYTES * TRACE_LEN_BYTES =
        DEFAULT_BUFFER_SIZE SV_TEST := by
  refine ⟨rfl, rfl, by decide, by decide, by decide, by decide, by decide, ?_⟩
  intro SV_TEST
  cases SV_TEST <;> decide

/-- Distinct enumerators of `rr_csr_enum` have distinct values. -/
theorem rr_csr_enum_val_injective (e1 e2 : rr_csr_enum) (h : e1.val = e2.val) : e1 = e2 := by
  cases e1 <;> cases e2 <;> first | rfl | (exact absurd h (by decide))

/-- C9: the enumerators `BUF_ADDR_HI` to `RR_CSR_VERSION` have the register index of their
trailing comment, and for every enumerator `e`, `RR_CSR_ADDR(e) = 0x100000 + 4*e`, so distinct
registers get distinct, 4-byte aligned addresses at or above `CL_FPGARR_CSR_BASE`. -/
theorem csr_register_map :
    (rr_csr_enum.BUF_ADDR_HI.val = 0 ∧ rr_csr_enum.BUF_ADDR_LO.val = 1 ∧
     rr_csr_enum.BUF_SIZE_HI.val = 2 ∧ rr_csr_enum.BUF_SIZE_LO.val = 3 ∧
     rr_csr_enum.RECORD_BUF_UPDATE.val = 4 ∧ rr_csr_enum.REPLAY_BUF_UPDATE.val = 5 ∧
     rr_csr_enum.RECORD_FORCE_FINISH.val = 6 ∧ rr_csr_enum.REPLAY_START.val = 7 ∧
     rr_csr_enum.RR_MODE.val = 8 ∧ rr_csr_enum.RR_STATE.val = 9 ∧
     rr_csr_enum.RECORD_BITS_HI.val = 10 ∧ rr_csr_enum.RECORD_BITS_LO.val = 11 ∧
     rr_csr_enum.REPLAY_BITS_HI.val = 12 ∧ rr_csr_enum.REPLAY_BITS_LO.val = 13 ∧
     rr_csr_enum.VALIDATE_BUF_UPDATE.val = 14 ∧ rr_csr_enum.RR_RSVD_2.val = 15 ∧
     rr_csr_enum.VALIDATE_BITS_HI.val = 16 ∧ rr_csr_enum.VALIDATE_BITS_LO.val = 17 ∧
     rr_csr_enum.RT_REPLAY_BITS_HI.val = 18 ∧ rr_csr_enum.RT_REPLAY_BITS_LO.val = 19 ∧
     rr_csr_enum.RR_TRACE_FIFO_ASSERT.val = 20 ∧ rr_csr_enum.RR_CSR_VERSION.val = 21) ∧
    (∀ e : rr_csr_enum, RR_CSR_ADDR e.val = 0x100000 + 4 * e.val ∧
      RR_CSR_ADDR e.val % 4 = 0 ∧ CL_FPGARR_CSR_BASE ≤ RR_CSR_ADDR e.val) ∧
    (∀ e1 e2 : rr_csr_enum, RR_CSR_ADDR e1.val = RR_CSR_ADDR e2.val → e1 = e2) := by
  refine ⟨by decide, ?_, ?_⟩
  · intro e
    simp only [RR_CSR_ADDR, CL_FPGARR_CSR_BASE]
    refine ⟨trivial, by omega, by omega⟩
  · intro e1 e2 h
    apply rr_csr_enum_val_injective
    simp only [RR_CSR_ADDR] at h
    omega

/-! ### The 64-bit split and join macros -/

/-- The macro `UINT64_HI32` gives the quotient by `2 ^ 32` of the 64-bit value. -/
theorem UINT64_HI32_eq (x : Nat) : UINT64_HI32 x = x % 2 ^ 64 / 2 ^ 32 := by
  have h : (0xffffffff : Nat) = 2 ^ 32 - 1 := by norm_num
  unfold UINT64_HI32
  rw [h, Nat.and_pow_two_sub_one_eq_mod, Nat.shiftRight_eq_div_pow]
  apply Nat.mod_eq_of_lt
  omega

/-- The macro `UINT64_LO32` gives the remainder modulo `2 ^ 32`. -/
theorem UINT64_LO32_eq (x : Nat) : UINT64_LO32 x = x % 2 ^ 32 := by
  have h : (0xffffffff : Nat) = 2 ^ 32 - 1 := by norm_num
  unfold UINT64_LO32
  rw [h, Nat.and_pow_two_sub_one_eq_mod]
  omega

/-- On 32-bit halves the macro `UINT64_FROM32` gives `2 ^ 32 * hi + lo`. -/
theorem UINT64_FROM32_eq (hi lo : Nat) (hhi : hi < 2 ^ 32) (hlo : lo < 2 ^ 32) :
    UINT64_FROM32 hi lo = 2 ^ 32 * hi + lo := by
  unfold UINT64_FROM32
  rw [Nat.shiftLeft_eq, Nat.mod_eq_of_lt (show hi < 2 ^ 64 by omega),
    Nat.mod_eq_of_lt (show lo < 2 ^ 64 by omega),
    Nat.mod_eq_of_lt (show hi * 2 ^ 32 < 2 ^ 64 by omega), Nat.mul_comm,
    ← Nat.mul_add_lt_is_or hlo]

/-- C13: the 64-bit split and join macros are mutually inverse: for a 64-bit `x`, `UINT64_HI32(x)`
and `UINT64_LO32(x)` are below `2^32` and `UINT64_FROM32` of them is `x`; for 32-bit `hi` and
`lo`, `UINT64_HI32(UINT64_FROM32(hi, lo)) = hi` and `UINT64_LO32(UINT64_FROM32(hi, lo)) = lo`. -/
theorem UINT64_split_join (x hi lo : Nat) (hx : x < 2 ^ 64) (hhi : hi < 2 ^ 32)
    (hlo : lo < 2 ^ 32) :
    UINT64_HI32 x < 2 ^ 32 ∧ UINT64_LO32 x < 2 ^ 32 ∧
    UINT64_FROM32 (UINT64_HI32 x) (UINT64_LO32 x) = x ∧
    UINT64_HI32 (UINT64_FROM32 hi lo) = hi ∧ UINT64_LO32 (UINT64_FROM32 hi lo) = lo := by
  have h1 : UINT64_HI32 x < 2 ^ 32 := by rw [UINT64_HI32_eq]; omega
  have h2 : UINT64_LO32 x < 2 ^ 32 := by rw [UINT64_LO32_eq]; omega
  refine ⟨h1, h2, ?_, ?_, ?_⟩
  · rw [UINT64_FROM32_eq _ _ h1 h2, UINT64_HI32_eq, UINT64_LO32_eq]
    omega
  · rw [UINT64_FROM32_eq _ _ hhi hlo, UINT64_HI32_eq]
    omega
  · rw [UINT64_FROM32_eq _ _ hhi hlo, UINT64_LO32_eq]
    omega

/-- Witness for `UINT64_split_join`: `0x123456789ABCDEF0` splits into `0x12345678` and
`0x9ABCDEF0`. -/
theorem UINT64_split_join_witness :
    UINT64_FROM32 (UINT64_HI32 0x123456789ABCDEF0) (UINT64_LO32 0x123456789ABCDEF0) =
      0x123456789ABCDEF0 ∧
    UINT64_HI32 (UINT64_FROM32 0x12345678 0x9ABCDEF0) = 0x12345678 ∧
    UINT64_LO32 (UINT64_FROM32 0x12345678 0x9ABCDEF0) = 0x9ABCDEF0 :=
  (UINT64_split_join 0x123456789ABCDEF0 0x12345678 0x9ABCDEF0 (by decide) (by decide)
    (by decide)).2.2

end cl_fpgarr

/-! ## Properties of `test_dram_dma.c` -/

namespace test_dram_dma

theorem call_ext (env : Oracle) (c : Call) {t0 t : Log} (h : t0 <+: t) :
    t0 <+: (call env c t).2 :=
  h.trans (List.prefix_append _ _)

theorem fail_on_ext (env : Oracle) (cond : Bool) (label next : Log → Int × Log) (text : String)
    {t0 t : Log} (hl : ∀ t1, t0 <+: t1 → t0 <+: (label t1).2)
    (hn : ∀ t1, t0 <+: t1 → t0 <+: (next t1).2) (h : t0 <+: t) :
    t0 <+: (fail_on env cond label text next t).2 := by
  unfold fail_on
  split
  · exact hl _ (call_ext env _ h)
  · exact hn _ h

theorem dma_example_out_ext (env : Oracle) (wb rb wf rf rc : Int) {t0 t : Log} (h : t0 <+: t) :
    t0 <+: (dma_example_out env wb rb wf rf rc t).2 := by
  unfold dma_example_out
  dsimp only
  repeat' first
    | exact h
    | apply call_ext
    | split

theorem dma_write_loop_ext (env : Oracle) (wf wb : Int) (n : Nat) (k : Nat) :
    ∀ {t0 t : Log}, t0 <+: t → t0 <+: (dma_write_loop env wf wb n k t).2 := by
  induction k with
  | zero => intro t0 t h; exact h
  | succ k ih =>
    intro t0 t h
    unfold dma_write_loop
    dsimp only
    split
    · exact call_ext env _ (call_ext env _ h)
    · exact ih (call_ext env _ h)

theorem dma_read_loop_ext (env : Oracle) (rf rb wb : Int) (n : Nat) (k : Nat) :
    ∀ (passed : Bool) {t0 t : Log}, t0 <+: t →
      t0 <+: (dma_read_loop env rf rb wb n k passed t).2 := by
  induction k with
  | zero => intro p t0 t h; exact h
  | succ k ih =>
    intro p t0 t h
    unfold dma_read_loop
    dsimp only
    split
    · exact call_ext env _ (call_ext env _ h)
    · split
      · exact ih _ (call_ext env _ (call_ext env _ (call_ext env _ h)))
      · exact ih _ (call_ext env _ (call_ext env _ (call_ext env _ h)))

theorem dma_example_ext (env : Oracle) (slot_id : Int) (n : Nat) {t0 t : Log} (h : t0 <+: t) :
    t0 <+: (dma_example env slot_id n t).2 := by
  unfold dma_example
  dsimp only
  repeat' first
    | exact h
    | assumption
    | apply call_ext
    | apply dma_example_out_ext
    | apply dma_read_loop_ext
    | apply dma_write_loop_ext
    | apply fail_on_ext
    | intro _ _
    | split

theorem axi_poll_body_ext (env : Oracle) (h : Int) (off : Nat) {t0 t : Log} (ht : t0 <+: t) :
    t0 <+: (axi_poll_body env h off t).2 := by
  unfold axi_poll_body
  dsimp only
  split
  · exact call_ext env _ (call_ext env _ ht)
  · exact call_ext env _ ht

theorem axi_poll_ext (env : Oracle) (h : Int) (off : Nat) (n : Nat) :
    ∀ {t0 t : Log}, t0 <+: t → t0 <+: (axi_poll env h off n t).2 := by
  induction n with
  | zero => intro t0 t ht; exact axi_poll_body_ext env h off ht
  | succ n ih =>
    intro t0 t ht
    unfold axi_poll
    dsimp only
    split
    · exact ih (axi_poll_body_ext env h off ht)
    · exact axi_poll_body_ext env h off ht

theorem axi_mstr_ddr_access_ext (env : Oracle) (slot_id h : Int) (hi lo data : Nat)
    {t0 t : Log} (ht : t0 <+: t) :
    t0 <+: (axi_mstr_ddr_access env slot_id h hi lo data t).2 := by
  unfold axi_mstr_ddr_access
  dsimp only
  repeat' first
    | exact ht
    | assumption
    | apply call_ext
    | apply axi_poll_ext
    | apply fail_on_ext
    | intro _ _
    | split

theorem axi_mstr_example_ext (env : Oracle) (slot_id : Int) {t0 t : Log} (ht : t0 <+: t) :
    t0 <+: (axi_mstr_example env slot_id t).2 := by
  unfold axi_mstr_example
  dsimp only
  repeat' first
    | exact ht
    | assumption
    | apply call_ext
    | apply axi_mstr_ddr_access_ext
    | apply fail_on_ext
    | intro _ _

theorem pcim_log_loop_ext (env : Oracle) (k : Nat) :
    ∀ {t0 t : Log}, t0 <+: t → t0 <+: pcim_log_loop env k t := by
  induction k with
  | zero => intro t0 t h; exact h
  | succ k ih => intro t0 t h; exact ih (call_ext env _ h)

theorem pcim_free_huge_ext (env : Oracle) (va : Nat) (rc : Int) {t0 t : Log} (ht : t0 <+: t) :
    t0 <+: (pcim_free_huge env va rc t).2 :=
  call_ext env _ ht

theorem pcim_poke_ext (env : Oracle) (h : Int) (va offset value : Nat) (text : String)
    (next : Log → Int × Log) {t0 t : Log} (hn : ∀ t1, t0 <+: t1 → t0 <+: (next t1).2)
    (ht : t0 <+: t) : t0 <+: (pcim_poke env h va offset value text next t).2 :=
  fail_on_ext env _ _ _ _ (fun _ h1 => pcim_free_huge_ext env va _ h1) hn (call_ext env _ ht)

set_option maxRecDepth 8000 in
theorem pcim_example_ext (env : Oracle) (v : Nat) (slot_id : Int) (n : Nat) {t0 t : Log}
    (ht : t0 <+: t) : t0 <+: (pcim_example env v slot_id n t).2 := by
  unfold pcim_example
  dsimp only
  repeat' first
    | with_reducible apply pcim_poke_ext
    | with_reducible apply pcim_free_huge_ext
    | with_reducible apply pcim_log_loop_ext
    | with_reducible apply fail_on_ext
    | intro _ _
    | with_reducible apply call_ext
    | with_reducible assumption
    | split

theorem main_out_ext (env : Oracle) (rc : Int) {t0 t : Log} (ht : t0 <+: t) :
    t0 <+: (main_out env rc t).2 :=
  call_ext env _ (call_ext env _ ht)


theorem main_rr_ext (env : Oracle) (v : Nat) (slot_id : Int) {t0 t : Log} (ht : t0 <+: t) :
    t0 <+: (main_rr env v slot_id t).2 := by
  unfold main_rr
  dsimp only
  repeat' first
    | with_reducible apply fail_on_ext
    | with_reducible apply main_out_ext
    | with_reducible apply pcim_example_ext
    | with_reducible apply axi_mstr_example_ext
    | with_reducible apply dma_example_ext
    | intro _ _
    | with_reducible apply call_ext
    | with_reducible assumption

/-- Whatever happens later, the transcript of `main_rr` holds its calls of `init_rr` and
`is_replay`. -/
theorem main_rr_mem (env : Oracle) (v : Nat) (slot_id : Int) (t : Log) :
    (Call.init_rr slot_id, env t.length (.init_rr slot_id)) ∈ (main_rr env v slot_id t).2 ∧
    (Call.is_replay, env (t.length + 2) .is_replay) ∈ (main_rr env v slot_id t).2 := by
  have hp : (call env .is_replay (call env .do_pre_rr (call env (.init_rr slot_id) t).2).2).2 <+:
      (main_rr env v slot_id t).2 := by
    unfold main_rr
    dsimp only
    repeat' first
      | with_reducible apply fail_on_ext
      | with_reducible apply main_out_ext
      | with_reducible apply pcim_example_ext
      | with_reducible apply axi_mstr_example_ext
      | with_reducible apply dma_example_ext
      | intro _ _
      | with_reducible assumption
      | exact List.prefix_refl _
  constructor <;> apply hp.subset <;> simp [call]

/-- When `is_replay()` answers non-zero, `main_rr` goes straight to `out`. -/
theorem main_rr_replay (env : Oracle) (v : Nat) (slot_id : Int) (t : Log)
    (h : (env (t.length + 2) .is_replay).ret ≠ 0) :
    main_rr env v slot_id t = ((env t.length (.init_rr slot_id)).ret,
      t ++ [(.init_rr slot_id, env t.length (.init_rr slot_id)),
        (.do_pre_rr, env (t.length + 1) .do_pre_rr),
        (.is_replay, env (t.length + 2) .is_replay),
        (.log_error "Skip application code, replaying",
          env (t.length + 3) (.log_error "Skip application code, replaying")),
        (.log_info (if (env t.length (.init_rr slot_id)).ret = 0 then "TEST PASSED"
            else "TEST FAILED"),
          env (t.length + 4) (.log_info (if (env t.length (.init_rr slot_id)).ret = 0
            then "TEST PASSED" else "TEST FAILED"))),
        (.do_post_rr, env (t.length + 5) .do_post_rr)]) := by
  simp [main_rr, fail_on, call, main_out, h]


/-- The replay decision, for the part of `main` after the `switch (argc)`. -/
theorem main_run_replay (env : Oracle) (SV_TEST : Bool) (v : Nat) (slot_id : Int) (t : Log)
    (hsetup : ∀ e ∈ (main_run env SV_TEST v slot_id t).2,
      (e.1 = .log_init "test_dram_dma" ∨ e.1 = .log_attach ∨ e.1 = .fpga_mgmt_init ∨
        ∃ s, e.1 = .check_slot_config s) → e.2.ret = 0)
    (hreplay : ∀ e ∈ (main_run env SV_TEST v slot_id t).2, e.1 = .is_replay → e.2.ret ≠ 0) :
    ∃ rr : Resp, (Call.init_rr slot_id, rr) ∈ (main_run env SV_TEST v slot_id t).2 ∧
      (main_run env SV_TEST v slot_id t).1 = rr.ret ∧
      (main_run env SV_TEST v slot_id t).2.map Prod.fst = t.map Prod.fst ++
        ([.log_init "test_dram_dma", .log_attach, .fpga_mgmt_init,
          .log_info "Checking to see if the right AFI is loaded..."] ++
        (if SV_TEST then [] else [.check_slot_config slot_id]) ++
        [.init_rr slot_id, .do_pre_rr, .is_replay, .log_error "Skip application code, replaying",
          .log_info (if rr.ret = 0 then "TEST PASSED" else "TEST FAILED"), .do_post_rr]) := by
  by_cases c1 : (env t.length (.log_init "test_dram_dma")).ret = 0
  swap
  · exfalso
    simp [main_run, fail_on, call, main_out, c1] at hsetup
    exact c1 (hsetup _ _ (Or.inr (Or.inl ⟨rfl, rfl⟩)) (Or.inl rfl))
  by_cases c2 : (env (t.length + 1) .log_attach).ret = 0
  swap
  · exfalso
    simp [main_run, fail_on, call, main_out, c1, c2] at hsetup
    exact c2 (hsetup _ _ (Or.inr (Or.inr (Or.inl ⟨rfl, rfl⟩))) (Or.inr (Or.inl rfl)))
  by_cases c3 : (env (t.length + 2) .fpga_mgmt_init).ret = 0
  swap
  · exfalso
    simp [main_run, fail_on, call, main_out, c1, c2, c3] at hsetup
    exact c3 (hsetup _ _ (Or.inr (Or.inr (Or.inr (Or.inl ⟨rfl, rfl⟩))))
      (Or.inr (Or.inr (Or.inl rfl))))
  cases SV_TEST with
  | true =>
    have hrun : main_run env true v slot_id t = main_rr env v slot_id
        (t ++ [(.log_init "test_dram_dma", env t.length (.log_init "test_dram_dma")),
          (.log_attach, env (t.length + 1) .log_attach),
          (.fpga_mgmt_init, env (t.length + 2) .fpga_mgmt_init),
          (.log_info "Checking to see if the right AFI is loaded...",
            env (t.length + 3) (.log_info "Checking to see if the right AFI is loaded..."))]) := by
      simp [main_run, fail_on, call, c1, c2, c3]
    rw [hrun] at hreplay ⊢
    have hm := main_rr_mem env v slot_id
      (t ++ [(.log_init "test_dram_dma", env t.length (.log_init "test_dram_dma")),
        (.log_attach, env (t.length + 1) .log_attach),
        (.fpga_mgmt_init, env (t.length + 2) .fpga_mgmt_init),
        (.log_info "Checking to see if the right AFI is loaded...",
          env (t.length + 3) (.log_info "Checking to see if the right AFI is loaded..."))])
    have hr := hreplay _ hm.2 rfl
    refine ⟨_, hm.1, ?_⟩
    rw [main_rr_replay env v slot_id _ hr]
    simp
  | false =>
    by_cases c4 : (env (t.length + 4) (.check_slot_config slot_id)).ret = 0
    swap
    · exfalso
      simp [main_run, fail_on, call, main_out, c1, c2, c3, c4] at hsetup
      exact c4 (hsetup _ _ (Or.inr (Or.inr (Or.inr (Or.inr (Or.inr (Or.inl ⟨rfl, rfl⟩))))))
        (Or.inr (Or.inr (Or.inr ⟨_, rfl⟩))))
    have hrun : main_run env false v slot_id t = main_rr env v slot_id
        (t ++ [(.log_init "test_dram_dma", env t.length (.log_init "test_dram_dma")),
          (.log_attach, env (t.length + 1) .log_attach),
          (.fpga_mgmt_init, env (t.length + 2) .fpga_mgmt_init),
          (.log_info "Checking to see if the right AFI is loaded...",
            env (t.length + 3) (.log_info "Checking to see if the right AFI is loaded...")),
          (.check_slot_config slot_id, env (t.length + 4) (.check_slot_config slot_id))]) := by
      simp [main_run, fail_on, call, c1, c2, c3, c4]
    rw [hrun] at hreplay ⊢
    have hm := main_rr_mem env v slot_id
      (t ++ [(.log_init "test_dram_dma", env t.length (.log_init "test_dram_dma")),
        (.log_attach, env (t.length + 1) .log_attach),
        (.fpga_mgmt_init, env (t.length + 2) .fpga_mgmt_init),
        (.log_info "Checking to see if the right AFI is loaded...",
          env (t.length + 3) (.log_info "Checking to see if the right AFI is loaded...")),
        (.check_slot_config slot_id, env (t.length + 4) (.check_slot_config slot_id))])
    have hr := hreplay _ hm.2 rfl
    refine ⟨_, hm.1, ?_⟩
    rw [main_rr_replay env v slot_id _ hr]
    simp


/-- Every run of `dma_example` begins with a call of `malloc`. -/
theorem dma_example_calls_malloc (env : Oracle) (slot_id : Int) (n : Nat) (t : Log) :
    (Call.malloc n, env t.length (.malloc n)) ∈ (dma_example env slot_id n t).2 := by
  have hp : (call env (.malloc n) t).2 <+: (dma_example env slot_id n t).2 := by
    unfold dma_example
    dsimp only
    repeat' first
      | with_reducible apply dma_example_out_ext
      | with_reducible apply dma_read_loop_ext
      | with_reducible apply dma_write_loop_ext
      | with_reducible apply fail_on_ext
      | intro _ _
      | with_reducible assumption
      | exact List.prefix_append _ _
      | with_reducible apply call_ext
      | split
  exact hp.subset (by simp [call])

/-- Every run of `axi_mstr_example` begins with a call of `fpga_pci_attach`. -/
theorem axi_mstr_example_calls_attach (env : Oracle) (slot_id : Int) (t : Log) :
    (Call.fpga_pci_attach slot_id 0 0 0, env t.length (.fpga_pci_attach slot_id 0 0 0)) ∈
      (axi_mstr_example env slot_id t).2 := by
  have hp : (call env (.fpga_pci_attach slot_id 0 0 0) t).2 <+:
      (axi_mstr_example env slot_id t).2 := by
    unfold axi_mstr_example
    dsimp only
    repeat' first
      | with_reducible apply axi_mstr_ddr_access_ext
      | with_reducible apply fail_on_ext
      | intro _ _
      | with_reducible assumption
      | exact List.prefix_refl _
      | with_reducible apply call_ext
  exact hp.subset (by simp [call])

set_option maxRecDepth 8000 in
/-- Every run of `pcim_example` begins with a call of `fpga_pci_attach`. -/
theorem pcim_example_calls_attach (env : Oracle) (v : Nat) (slot_id : Int) (n : Nat) (t : Log) :
    (Call.fpga_pci_attach slot_id 0 0 0, env t.length (.fpga_pci_attach slot_id 0 0 0)) ∈
      (pcim_example env v slot_id n t).2 := by
  have hp : (call env (.fpga_pci_attach slot_id 0 0 0) t).2 <+:
      (pcim_example env v slot_id n t).2 := by
    unfold pcim_example
    dsimp only
    repeat' first
      | with_reducible apply pcim_poke_ext
      | with_reducible apply pcim_free_huge_ext
      | with_reducible apply pcim_log_loop_ext
      | with_reducible apply fail_on_ext
      | intro _ _
      | with_reducible assumption
      | exact List.prefix_refl _
      | with_reducible apply call_ext
      | split
  exact hp.subset (by simp [call])


/-- C7: replay skips application logic.  In a run of `main` with `argc` 1 or 3 in which
`log_init`, `log_attach`, `fpga_mgmt_init` and `check_slot_config` returned 0 and `is_replay()`
returned non-zero, the calls made are exactly the set-up calls, `init_rr`, `do_pre_rr`,
`is_replay`, the two log lines and `do_post_rr`: `do_post_rr` is called exactly once, no `malloc`
and no `fpga_pci_attach` occurs (every run of `dma_example` starts with the former, every run of
`axi_mstr_example` and of `pcim_example` with the latter, so none of the three was called), and
`main` returns the value `init_rr` returned. -/
theorem main_replay_skips_application (env : Oracle) (SV_TEST : Bool) (tstcfg_val : Nat)
    (argv : List String) (hargc : argv.length = 1 ∨ argv.length = 3)
    (hsetup : ∀ e ∈ (main env SV_TEST tstcfg_val argv []).2,
      (e.1 = .log_init "test_dram_dma" ∨ e.1 = .log_attach ∨ e.1 = .fpga_mgmt_init ∨
        ∃ s, e.1 = .check_slot_config s) → e.2.ret = 0)
    (hreplay : ∀ e ∈ (main env SV_TEST tstcfg_val argv []).2,
      e.1 = .is_replay → e.2.ret ≠ 0) :
    (∃ (slot_id : Int) (rr : Resp),
      (Call.init_rr slot_id, rr) ∈ (main env SV_TEST tstcfg_val argv []).2 ∧
      (main env SV_TEST tstcfg_val argv []).1 = rr.ret ∧
      (main env SV_TEST tstcfg_val argv []).2.map Prod.fst =
        (if argv.length = 3 then [.sscanf_x (argv.get? 2)] else []) ++
        ([.log_init "test_dram_dma", .log_attach, .fpga_mgmt_init,
          .log_info "Checking to see if the right AFI is loaded..."] ++
        (if SV_TEST then [] else [.check_slot_config slot_id]) ++
        [.init_rr slot_id, .do_pre_rr, .is_replay, .log_error "Skip application code, replaying",
          .log_info (if rr.ret = 0 then "TEST PASSED" else "TEST FAILED"), .do_post_rr])) ∧
    ((main env SV_TEST tstcfg_val argv []).2.map Prod.fst).count .do_post_rr = 1 ∧
    (∀ c ∈ (main env SV_TEST tstcfg_val argv []).2.map Prod.fst,
      (∀ n, c ≠ .malloc n) ∧ (∀ s, c ≠ .fpga_pci_attach s 0 0 0)) ∧
    (∀ s n t, ∃ r, (Call.malloc n, r) ∈ (dma_example env s n t).2) ∧
    (∀ s t, ∃ r, (Call.fpga_pci_attach s 0 0 0, r) ∈ (axi_mstr_example env s t).2) ∧
    (∀ s n t, ∃ r, (Call.fpga_pci_attach s 0 0 0, r) ∈ (pcim_example env tstcfg_val s n t).2) := by
  have key : ∃ (slot_id : Int) (rr : Resp),
      (Call.init_rr slot_id, rr) ∈ (main env SV_TEST tstcfg_val argv []).2 ∧
      (main env SV_TEST tstcfg_val argv []).1 = rr.ret ∧
      (main env SV_TEST tstcfg_val argv []).2.map Prod.fst =
        (if argv.length = 3 then [.sscanf_x (argv.get? 2)] else []) ++
        ([.log_init "test_dram_dma", .log_attach, .fpga_mgmt_init,
          .log_info "Checking to see if the right AFI is loaded..."] ++
        (if SV_TEST then [] else [.check_slot_config slot_id]) ++
        [.init_rr slot_id, .do_pre_rr, .is_replay, .log_error "Skip application code, replaying",
          .log_info (if rr.ret = 0 then "TEST PASSED" else "TEST FAILED"), .do_post_rr]) := by
    rcases hargc with h | h
    · have hm : main env SV_TEST tstcfg_val argv [] = main_run env SV_TEST tstcfg_val 0 [] := by
        simp [main, h]
      rw [hm] at hsetup hreplay ⊢
      obtain ⟨rr, h1, h2, h3⟩ := main_run_replay env SV_TEST tstcfg_val 0 [] hsetup hreplay
      exact ⟨0, rr, h1, h2, by simpa [h] using h3⟩
    · have hm : main env SV_TEST tstcfg_val argv [] = main_run env SV_TEST tstcfg_val
          (if (env 0 (.sscanf_x (argv.get? 2))).ret = 1
            then int32 ((env 0 (.sscanf_x (argv.get? 2))).out.headD 0) else 0)
          [(.sscanf_x (argv.get? 2), env 0 (.sscanf_x (argv.get? 2)))] := by
        simp [main, h, call]
      rw [hm] at hsetup hreplay ⊢
      obtain ⟨rr, h1, h2, h3⟩ := main_run_replay env SV_TEST tstcfg_val _ _ hsetup hreplay
      exact ⟨_, rr, h1, h2, by simpa [h] using h3⟩
  refine ⟨key, ?_, ?_, fun s n t => ⟨_, dma_example_calls_malloc env s n t⟩,
    fun s t => ⟨_, axi_mstr_example_calls_attach env s t⟩,
    fun s n t => ⟨_, pcim_example_calls_attach env tstcfg_val s n t⟩⟩
  · obtain ⟨slot_id, rr, -, -, h3⟩ := key
    rw [h3]
    rcases hargc with h | h <;> cases SV_TEST <;> simp [h, List.count_cons]
  · obtain ⟨slot_id, rr, -, -, h3⟩ := key
    rw [h3]
    rcases hargc with h | h <;> cases SV_TEST <;> simp [h]


/-- Witness for `main_replay_skips_application`: on `toyPlatform`, started without arguments,
`main` returns the 7 that `init_rr` returned. -/
theorem main_replay_skips_application_witness :
    (main toyPlatform false 0 ["test_dram_dma"] []).1 = 7 ∧
    ((main toyPlatform false 0 ["test_dram_dma"] []).2.map Prod.fst).count .do_post_rr = 1 := by
  have h := main_replay_skips_application toyPlatform false 0 ["test_dram_dma"] (Or.inl rfl)
    (by simp [main, main_run, main_rr, fail_on, call, main_out, toyPlatform])
    (by simp [main, main_run, main_rr, fail_on, call, main_out, toyPlatform])
  exact ⟨by decide, h.2.1⟩


theorem callsTo_call (env : Oracle) (name : String) (c : Call) (t : Log) :
    callsTo name (call env c t).2 =
      callsTo name t ++ (if c.name = name then [(c, env t.length c)] else []) := by
  simp only [call, callsTo, List.filter_append]
  split <;> simp_all [List.filter_cons]

theorem returned_call (env : Oracle) (name : String) (c : Call) (t : Log) :
    returned name (call env c t).2 =
      returned name t ++ (if c.name = name then [(env t.length c).ret] else []) := by
  simp only [returned, callsTo_call, List.map_append]
  split <;> simp

theorem call_fst (env : Oracle) (c : Call) (t : Log) :
    (call env c t).1 = env t.length c := rfl

theorem dma_example_out_fst (env : Oracle) (wb rb wf rf rc : Int) (t : Log) :
    (dma_example_out env wb rb wf rf rc t).1 = if rc ≠ 0 then 1 else 0 := rfl

theorem dma_example_out_callsTo (env : Oracle) (wb rb wf rf rc : Int) (t : Log) (name : String)
    (h1 : name ≠ "free") (h2 : name ≠ "close") :
    callsTo name (dma_example_out env wb rb wf rf rc t).2 = callsTo name t := by
  unfold dma_example_out
  dsimp only
  have e1 : ∀ (p : Int) (s : Log), callsTo name (call env (.free p) s).2 = callsTo name s := by
    intro p s; rw [callsTo_call]; simp [Call.name, Ne.symm h1]
  have e2 : ∀ (p : Int) (s : Log), callsTo name (call env (.close p) s).2 = callsTo name s := by
    intro p s; rw [callsTo_call]; simp [Call.name, Ne.symm h2]
  split_ifs <;> simp only [e1, e2]

/-- The write loop of `dma_example`: what it adds to the transcript and how it ends. -/
theorem dma_write_loop_spec (env : Oracle) (wf wb : Int) (n : Nat) (k : Nat) :
    ∀ t : Log,
      (∀ name, name ≠ "fpga_dma_burst_write" → name ≠ "log_error" →
        callsTo name (dma_write_loop env wf wb n k t).2 = callsTo name t) ∧
      (∀ rc, (dma_write_loop env wf wb n k t).1 = some rc → rc ≠ 0 ∧
        rc ∈ returned "fpga_dma_burst_write" (dma_write_loop env wf wb n k t).2) ∧
      ((dma_write_loop env wf wb n k t).1 = none →
        returned "fpga_dma_burst_write" (dma_write_loop env wf wb n k t).2 =
          returned "fpga_dma_burst_write" t ++ List.replicate k 0) := by
  induction k with
  | zero => intro t; simp [dma_write_loop]
  | succ k ih =>
    intro t
    unfold dma_write_loop
    dsimp only
    generalize ((4 - (k + 1)) * MEM_16G) % 2 ^ 64 = addr
    split
    · rename_i hrc
      refine ⟨?_, ?_, ?_⟩
      · intro name h1 h2
        simp [callsTo_call, Call.name, Ne.symm h1, Ne.symm h2]
      · intro rc h
        simp only [Option.some.injEq] at h
        subst h
        exact ⟨hrc, by simp [returned_call, Call.name, call_fst]⟩
      · intro h; simp at h
    · rename_i hrc
      obtain ⟨i1, i2, i3⟩ := ih (call env
        (.fpga_dma_burst_write wf wb n addr) t).2
      refine ⟨?_, i2, ?_⟩
      · intro name h1 h2
        rw [i1 name h1 h2]
        simp [callsTo_call, Call.name, Ne.symm h1]
      · intro h
        rw [i3 h]
        simp only [returned_call, Call.name, if_true, List.replicate_succ, List.append_assoc,
          List.singleton_append, List.append_cancel_left_eq, List.cons.injEq, and_true]
        simpa [call_fst] using hrc


/-- The read-and-compare loop of `dma_example`: what it adds to the transcript and how it
ends. -/
theorem dma_read_loop_spec (env : Oracle) (rf rb wb : Int) (n : Nat) (k : Nat) :
    ∀ (passed : Bool) (t : Log),
      (∀ name, name ≠ "fpga_dma_burst_read" → name ≠ "buffer_compare" → name ≠ "log_error" →
        name ≠ "log_info" →
        callsTo name (dma_read_loop env rf rb wb n k passed t).2 = callsTo name t) ∧
      (∀ rc, (dma_read_loop env rf rb wb n k passed t).1.1 = some rc → rc ≠ 0 ∧
        rc ∈ returned "fpga_dma_burst_read" (dma_read_loop env rf rb wb n k passed t).2) ∧
      ((dma_read_loop env rf rb wb n k passed t).1.1 = none →
        returned "fpga_dma_burst_read" (dma_read_loop env rf rb wb n k passed t).2 =
          returned "fpga_dma_burst_read" t ++ List.replicate k 0 ∧
        ∃ ds : List Int, ds.length = k ∧
          returned "buffer_compare" (dma_read_loop env rf rb wb n k passed t).2 =
            returned "buffer_compare" t ++ ds ∧
          ((dma_read_loop env rf rb wb n k passed t).1.2 = true ↔
            passed = true ∧ ∀ d ∈ ds, d = 0)) := by
  induction k with
  | zero => intro passed t; simp [dma_read_loop]
  | succ k ih =>
    intro passed t
    unfold dma_read_loop
    dsimp only
    generalize ((4 - (k + 1)) * MEM_16G) % 2 ^ 64 = addr
    split
    · rename_i hrc
      refine ⟨?_, ?_, ?_⟩
      · intro name h1 h2 h3 h4
        simp [callsTo_call, Call.name, Ne.symm h1, Ne.symm h3]
      · intro rc h
        simp only [Option.some.injEq] at h
        subst h
        exact ⟨hrc, by simp [returned_call, Call.name, call_fst]⟩
      · intro h; simp at h
    · rename_i hrc
      split
      · rename_i hd
        obtain ⟨i1, i2, i3⟩ := ih false (call env
          (.log_error "DIMM %d failed with %lu bytes which differ") (call env
            (.buffer_compare rb wb n) (call env
              (.fpga_dma_burst_read rf rb n addr) t).2).2).2
        refine ⟨?_, ?_, ?_⟩
        · intro name h1 h2 h3 h4
          rw [i1 name h1 h2 h3 h4]
          simp [callsTo_call, Call.name, Ne.symm h1, Ne.symm h2, Ne.symm h3]
        · exact i2
        · intro h
          obtain ⟨j1, ds, j2, j3, j4⟩ := i3 h
          refine ⟨?_, (call env (.buffer_compare rb wb n) (call env
              (.fpga_dma_burst_read rf rb n addr) t).2).1.ret
                :: ds, by simp [j2], ?_, ?_⟩
          · rw [j1]
            simp [returned_call, Call.name, List.replicate_succ]
            simpa [call_fst] using hrc
          · rw [j3]
            simp [returned_call, Call.name, call_fst]
          · rw [j4]
            simp only [Bool.false_eq_true, false_and, false_iff, not_and]
            intro _ hall
            exact hd (hall _ (List.mem_cons_self _ _))
      · rename_i hd
        obtain ⟨i1, i2, i3⟩ := ih passed (call env
          (.log_info "DIMM %d passed!") (call env
            (.buffer_compare rb wb n) (call env
              (.fpga_dma_burst_read rf rb n addr) t).2).2).2
        refine ⟨?_, ?_, ?_⟩
        · intro name h1 h2 h3 h4
          rw [i1 name h1 h2 h3 h4]
          simp [callsTo_call, Call.name, Ne.symm h1, Ne.symm h2, Ne.symm h4]
        · exact i2
        · intro h
          obtain ⟨j1, ds, j2, j3, j4⟩ := i3 h
          refine ⟨?_, (call env (.buffer_compare rb wb n) (call env
              (.fpga_dma_burst_read rf rb n addr) t).2).1.ret
                :: ds, by simp [j2], ?_, ?_⟩
          · rw [j1]
            simp [returned_call, Call.name, List.replicate_succ]
            simpa [call_fst] using hrc
          · rw [j3]
            simp [returned_call, Call.name, call_fst]
          · rw [j4]
            have hd0 : (call env (.buffer_compare rb wb n) (call env
              (.fpga_dma_burst_read rf rb n addr) t).2).1.ret
                = 0 := by simpa using hd
            simp only [List.mem_cons, forall_eq_or_imp, hd0, true_and]


theorem length_call (env : Oracle) (c : Call) (t : Log) :
    (call env c t).2.length = t.length + 1 := by
  simp [call]

theorem callsTo_nil (name : String) : callsTo name [] = [] := rfl

theorem returned_nil (name : String) : returned name [] = [] := rfl

theorem dma_example_out_returned (env : Oracle) (wb rb wf rf rc : Int) (t : Log) (name : String)
    (h1 : name ≠ "free") (h2 : name ≠ "close") :
    returned name (dma_example_out env wb rb wf rf rc t).2 = returned name t := by
  simp only [returned, dma_example_out_callsTo env wb rb wf rf rc t name h1 h2]

theorem dma_write_loop_returned (env : Oracle) (wf wb : Int) (n k : Nat) (t : Log) (name : String)
    (h1 : name ≠ "fpga_dma_burst_write") (h2 : name ≠ "log_error") :
    returned name (dma_write_loop env wf wb n k t).2 = returned name t := by
  simp only [returned, (dma_write_loop_spec env wf wb n k t).1 name h1 h2]

theorem dma_read_loop_returned (env : Oracle) (rf rb wb : Int) (n k : Nat) (p : Bool) (t : Log)
    (name : String) (h1 : name ≠ "fpga_dma_burst_read") (h2 : name ≠ "buffer_compare")
    (h3 : name ≠ "log_error") (h4 : name ≠ "log_info") :
    returned name (dma_read_loop env rf rb wb n k p t).2 = returned name t := by
  simp only [returned, (dma_read_loop_spec env rf rb wb n k p t).1 name h1 h2 h3 h4]

/-- The write loop, run to its end from `4 - k`, writes the DIMMs `4 - k`, ..., `3` in order,
each at `dimm * MEM_16G`. -/
theorem dma_write_loop_calls (env : Oracle) (wf wb : Int) (n : Nat) (k : Nat) (hk : k ≤ 4) :
    ∀ t : Log, (dma_write_loop env wf wb n k t).1 = none →
      (callsTo "fpga_dma_burst_write" (dma_write_loop env wf wb n k t).2).map Prod.fst =
        (callsTo "fpga_dma_burst_write" t).map Prod.fst ++
          (List.range' (4 - k) k).map
            (fun dimm => Call.fpga_dma_burst_write wf wb n ((dimm * MEM_16G) % 2 ^ 64)) := by
  induction k with
  | zero => intro t _; simp [dma_write_loop]
  | succ k ih =>
    intro t
    unfold dma_write_loop
    dsimp only
    split
    · intro h; simp at h
    · intro h
      rw [ih (by omega) _ h, callsTo_call, List.range'_succ]
      have e : 3 - k + 1 = 4 - k := by omega
      simp [Call.name, e]

/-- The read loop, run to its end from `4 - k`, reads the DIMMs `4 - k`, ..., `3` in order,
each at `dimm * MEM_16G`. -/
theorem dma_read_loop_calls (env : Oracle) (rf rb wb : Int) (n : Nat) (k : Nat) (hk : k ≤ 4) :
    ∀ (passed : Bool) (t : Log), (dma_read_loop env rf rb wb n k passed t).1.1 = none →
      (callsTo "fpga_dma_burst_read" (dma_read_loop env rf rb wb n k passed t).2).map Prod.fst =
        (callsTo "fpga_dma_burst_read" t).map Prod.fst ++
          (List.range' (4 - k) k).map
            (fun dimm => Call.fpga_dma_burst_read rf rb n ((dimm * MEM_16G) % 2 ^ 64)) := by
  induction k with
  | zero => intro p t _; simp [dma_read_loop]
  | succ k ih =>
    intro p t
    unfold dma_read_loop
    dsimp only
    have e : 3 - k + 1 = 4 - k := by omega
    split
    · intro h; simp at h
    · split
      · intro h
        rw [ih (by omega) _ _ h, callsTo_call, callsTo_call, callsTo_call, List.range'_succ]
        simp [Call.name, e]
      · intro h
        rw [ih (by omega) _ _ h, callsTo_call, callsTo_call, callsTo_call, List.range'_succ]
        simp [Call.name, e]

/-- The runs of `dma_example`, sorted into those that leave early (result 1, some call failed)
and those that reach the end of the second loop. -/
theorem dma_example_cases (env : Oracle) (slot_id : Int) (n : Nat) :
    ((dma_example env slot_id n []).1 = 1 ∧
      (returned "buffer_compare" (dma_example env slot_id n []).2 = [] ∨
        ∃ rc ∈ returned "fpga_dma_burst_read" (dma_example env slot_id n []).2, rc ≠ 0) ∧
      ((∃ p ∈ returned "malloc" (dma_example env slot_id n []).2, p = 0) ∨
        (returned "fpga_dma_open_queue" (dma_example env slot_id n []).2).length ≠ 2 ∨
        (∃ fd ∈ returned "fpga_dma_open_queue" (dma_example env slot_id n []).2, fd < 0) ∨
        (∃ rc ∈ returned "fill_buffer_urandom" (dma_example env slot_id n []).2, rc ≠ 0) ∨
        (∃ rc ∈ returned "fpga_dma_burst_write" (dma_example env slot_id n []).2, rc ≠ 0) ∨
        (∃ rc ∈ returned "fpga_dma_burst_read" (dma_example env slot_id n []).2, rc ≠ 0))) ∨
    ((∃ a b, returned "malloc" (dma_example env slot_id n []).2 = [a, b] ∧ a ≠ 0 ∧ b ≠ 0) ∧
      (∃ x y, returned "fpga_dma_open_queue" (dma_example env slot_id n []).2 = [x, y] ∧
        0 ≤ x ∧ 0 ≤ y) ∧
      returned "fill_buffer_urandom" (dma_example env slot_id n []).2 = [0] ∧
      returned "fpga_dma_burst_write" (dma_example env slot_id n []).2 = [0, 0, 0, 0] ∧
      returned "fpga_dma_burst_read" (dma_example env slot_id n []).2 = [0, 0, 0, 0] ∧
      (∃ fd buf, (callsTo "fpga_dma_burst_write" (dma_example env slot_id n []).2).map Prod.fst =
        (List.range 4).map (fun dimm => Call.fpga_dma_burst_write fd buf n (dimm * MEM_16G))) ∧
      (∃ fd buf, (callsTo "fpga_dma_burst_read" (dma_example env slot_id n []).2).map Prod.fst =
        (List.range 4).map (fun dimm => Call.fpga_dma_burst_read fd buf n (dimm * MEM_16G))) ∧
      ∃ ds : List Int, ds.length = 4 ∧
        returned "buffer_compare" (dma_example env slot_id n []).2 = ds ∧
        (dma_example env slot_id n []).1 = if ∀ d ∈ ds, d = 0 then 0 else 1) := by
  unfold dma_example
  dsimp only
  split
  · rename_i hA
    left
    simp only [dma_example_out_fst]
    refine ⟨by simp [ENOMEM], Or.inl ?_, Or.inl ?_⟩
    · simp [dma_example_out_returned, returned_call, returned_nil, Call.name]
    · simp [dma_example_out_returned, returned_call, returned_nil, Call.name]
      simpa [call_fst, eq_comm] using hA
  · rename_i hA
    have hA1 : ¬ (env 0 (.malloc n)).ret = 0 := fun h => hA (Or.inl h)
    have hA2 : ¬ (env 1 (.malloc n)).ret = 0 := fun h => hA (Or.inr (by simpa [call] using h))
    unfold fail_on
    dsimp only
    split
    · rename_i hB
      rw [if_pos (by decide)]
      left
      simp only [dma_example_out_fst]
      refine ⟨by decide, Or.inl ?_, Or.inr (Or.inl ?_)⟩
      · simp [dma_example_out_returned, returned_call, returned_nil, Call.name]
      · simp [dma_example_out_returned, returned_call, returned_nil, Call.name]
    · rename_i hB
      rw [if_neg (by decide)]
      split
      · rename_i hC
        rw [if_pos (by decide)]
        left
        simp only [dma_example_out_fst]
        refine ⟨by decide, Or.inl ?_, Or.inr (Or.inr (Or.inl ?_))⟩
        · simp [dma_example_out_returned, returned_call, returned_nil, Call.name]
        · simp [dma_example_out_returned, returned_call, returned_nil, Call.name]
          right
          simpa [call] using hC
      · rename_i hC
        rw [if_neg (by decide)]
        split
        · rename_i hD
          left
          simp only [dma_example_out_fst]
          refine ⟨?_, Or.inl ?_, Or.inr (Or.inr (Or.inr (Or.inl ?_)))⟩
          · simpa using hD
          · simp [dma_example_out_returned, returned_call, returned_nil, Call.name]
          · simp [dma_example_out_returned, returned_call, returned_nil, Call.name]
            simpa [call] using hD
        · rename_i hD
          have hD0 : (env 4 (.fill_buffer_urandom (env 0 (.malloc n)).ret n)).ret = 0 := by
            simpa [call] using hD
          split
          · rename_i rc hW
            have hw := (dma_write_loop_spec env _ _ n 4 _).2.1 rc hW
            left
            simp only [dma_example_out_fst]
            refine ⟨by simp [hw.1], Or.inl ?_, Or.inr (Or.inr (Or.inr (Or.inr (Or.inl ?_))))⟩
            · simp [dma_example_out_returned, dma_write_loop_returned, returned_call,
                returned_nil, Call.name]
            · rw [dma_example_out_returned _ _ _ _ _ _ _ _ (by decide) (by decide)]
              exact ⟨rc, hw.2, hw.1⟩
          · rename_i hW
            have hw := (dma_write_loop_spec env _ _ n 4 _).2.2 hW
            split
            · rename_i rc hR
              have hr := (dma_read_loop_spec env _ _ _ n 4 _ _).2.1 rc hR
              left
              simp only [dma_example_out_fst]
              refine ⟨by simp [hr.1], Or.inr ?_,
                Or.inr (Or.inr (Or.inr (Or.inr (Or.inr ?_))))⟩
              · rw [dma_example_out_returned _ _ _ _ _ _ _ _ (by decide) (by decide)]
                exact ⟨rc, hr.2, hr.1⟩
              · rw [dma_example_out_returned _ _ _ _ _ _ _ _ (by decide) (by decide)]
                exact ⟨rc, hr.2, hr.1⟩
            · rename_i hR
              obtain ⟨hr1, ds, hr2, hr3, hr4⟩ := (dma_read_loop_spec env _ _ _ n 4 _ _).2.2 hR
              right
              simp only [dma_example_out_fst]
              have hwc := dma_write_loop_calls env _ _ n 4 (le_refl _) _ hW
              have hrc := dma_read_loop_calls env _ _ _ n 4 (le_refl _) _ _ hR
              refine ⟨?_, ?_, ?_, ?_, ?_,
                ⟨(env 3 (.fpga_dma_open_queue slot_id 0 false)).ret, (env 0 (.malloc n)).ret, ?_⟩,
                ⟨(env 2 (.fpga_dma_open_queue slot_id 0 true)).ret, (env 1 (.malloc n)).ret, ?_⟩,
                ds, hr2, ?_, ?_⟩
              · refine ⟨(env 0 (.malloc n)).ret, (env 1 (.malloc n)).ret, ?_, hA1, hA2⟩
                simp [dma_example_out_returned, dma_read_loop_returned, dma_write_loop_returned,
                  returned_call, returned_nil, Call.name, call_fst, length_call]
              · refine ⟨(env 2 (.fpga_dma_open_queue slot_id 0 true)).ret,
                  (env 3 (.fpga_dma_open_queue slot_id 0 false)).ret, ?_, ?_, ?_⟩
                · simp [dma_example_out_returned, dma_read_loop_returned,
                    dma_write_loop_returned, returned_call, returned_nil, Call.name, call_fst, length_call]
                · simpa [call] using hB
                · simpa [call] using hC
              · simp [dma_example_out_returned, dma_read_loop_returned, dma_write_loop_returned,
                  returned_call, returned_nil, Call.name, call_fst, length_call, hD0]
              · rw [dma_example_out_returned _ _ _ _ _ _ _ _ (by decide) (by decide),
                  dma_read_loop_returned _ _ _ _ _ _ _ _ _ (by decide) (by decide) (by decide)
                    (by decide), hw]
                simp [returned_call, returned_nil, Call.name, List.replicate]
              · rw [dma_example_out_returned _ _ _ _ _ _ _ _ (by decide) (by decide), hr1,
                  dma_write_loop_returned _ _ _ _ _ _ _ (by decide) (by decide)]
                simp [returned_call, returned_nil, Call.name, List.replicate]
              · rw [dma_example_out_callsTo _ _ _ _ _ _ _ _ (by decide) (by decide),
                  (dma_read_loop_spec env _ _ _ n 4 _ _).1 _ (by decide) (by decide) (by decide)
                    (by decide), hwc]
                simp [callsTo_call, Call.name, callsTo_nil, List.range, List.range.loop, List.range',
                  MEM_16G, call_fst, length_call]
              · rw [dma_example_out_callsTo _ _ _ _ _ _ _ _ (by decide) (by decide), hrc,
                  (dma_write_loop_spec env _ _ n 4 _).1 _ (by decide) (by decide)]
                simp [callsTo_call, Call.name, callsTo_nil, List.range, List.range.loop, List.range',
                  MEM_16G, call_fst, length_call]
              · rw [dma_example_out_returned _ _ _ _ _ _ _ _ (by decide) (by decide), hr3,
                  dma_write_loop_returned _ _ _ _ _ _ _ (by decide) (by decide)]
                simp [returned_call, returned_nil, Call.name]
              · by_cases hall : ∀ d ∈ ds, d = 0
                · have hp := hr4.mpr ⟨rfl, hall⟩
                  rw [if_pos hall]
                  simp [hp]
                · have hp : ¬ _ := fun h => hall (hr4.mp h).2
                  rw [if_neg hall]
                  simp [hp]

/-- A list of four integers that are all zero is `[0, 0, 0, 0]`. -/
theorem all_zero_of_length_four (ds : List Int) (hl : ds.length = 4) :
    (∀ d ∈ ds, d = 0) ↔ ds = [0, 0, 0, 0] := by
  match ds, hl with
  | [a, b, c, d], _ => simp

/-- C10: `dma_example` returns only 0 or 1, and returns 0 exactly when, in its run, both `malloc`
calls gave a non-null buffer, both `fpga_dma_open_queue` calls gave a descriptor `>= 0`,
`fill_buffer_urandom` returned 0, four `fpga_dma_burst_write` and four `fpga_dma_burst_read`
calls returned 0 and four `buffer_compare` calls reported 0 differing bytes; the four writes and
the four reads then went to the DIMMs 0..3 at `dimm * MEM_16G`.  Once the read loop has compared
a DIMM, unless a read fails, all four DIMMs are read and compared whatever the comparisons
report, and a non-zero report makes the result 1. -/
theorem dma_example_result (env : Oracle) (slot_id : Int) (n : Nat) :
    ((dma_example env slot_id n []).1 = 0 ∨ (dma_example env slot_id n []).1 = 1) ∧
    ((dma_example env slot_id n []).1 = 0 ↔
      ((returned "malloc" (dma_example env slot_id n []).2).length = 2 ∧
        ∀ p ∈ returned "malloc" (dma_example env slot_id n []).2, p ≠ 0) ∧
      ((returned "fpga_dma_open_queue" (dma_example env slot_id n []).2).length = 2 ∧
        ∀ fd ∈ returned "fpga_dma_open_queue" (dma_example env slot_id n []).2, 0 ≤ fd) ∧
      returned "fill_buffer_urandom" (dma_example env slot_id n []).2 = [0] ∧
      returned "fpga_dma_burst_write" (dma_example env slot_id n []).2 = [0, 0, 0, 0] ∧
      returned "fpga_dma_burst_read" (dma_example env slot_id n []).2 = [0, 0, 0, 0] ∧
      returned "buffer_compare" (dma_example env slot_id n []).2 = [0, 0, 0, 0]) ∧
    ((dma_example env slot_id n []).1 = 0 →
      ∃ fd buf, (callsTo "fpga_dma_burst_write" (dma_example env slot_id n []).2).map Prod.fst =
        (List.range 4).map (fun dimm => Call.fpga_dma_burst_write fd buf n (dimm * MEM_16G))) ∧
    (returned "buffer_compare" (dma_example env slot_id n []).2 ≠ [] →
      (∀ rc ∈ returned "fpga_dma_burst_read" (dma_example env slot_id n []).2, rc = 0) →
      (∃ fd buf, (callsTo "fpga_dma_burst_read" (dma_example env slot_id n []).2).map Prod.fst =
        (List.range 4).map (fun dimm => Call.fpga_dma_burst_read fd buf n (dimm * MEM_16G))) ∧
      (returned "buffer_compare" (dma_example env slot_id n []).2).length = 4 ∧
      ((∃ d ∈ returned "buffer_compare" (dma_example env slot_id n []).2, d ≠ 0) →
        (dma_example env slot_id n []).1 = 1)) := by
  rcases dma_example_cases env slot_id n with
    ⟨h1, h2, h3⟩ | ⟨⟨a, b, ha, ha1, ha2⟩, ⟨x, y, hb, hb1, hb2⟩, hc, hd, he, hwc, hrc, ds, hl, hds,
      hres⟩
  · refine ⟨Or.inr h1, ?_, ?_, ?_⟩
    · rw [h1]
      constructor
      · intro h; exact absurd h (by decide)
      · rintro ⟨⟨-, hm⟩, ⟨hq1, hq2⟩, hf, hw, hr, -⟩
        exfalso
        rcases h3 with ⟨p, hp, hp0⟩ | hlen | ⟨fd, hfd, hneg⟩ | ⟨rc, hrc, hne⟩ | ⟨rc, hrc, hne⟩ |
          ⟨rc, hrc, hne⟩
        · exact hm p hp hp0
        · exact hlen hq1
        · exact absurd (hq2 fd hfd) (by omega)
        · rw [hf] at hrc; simp at hrc; exact hne hrc
        · rw [hw] at hrc; simp at hrc; exact hne hrc
        · rw [hr] at hrc; simp at hrc; exact hne hrc
    · rw [h1]; intro h; exact absurd h (by decide)
    · intro hne hall
      rcases h2 with h2 | ⟨rc, hrc, hne0⟩
      · exact absurd h2 hne
      · exact absurd (hall rc hrc) hne0
  · have hz := all_zero_of_length_four ds hl
    refine ⟨?_, ?_, fun _ => hwc, fun _ _ => ⟨hrc, by rw [hds, hl], ?_⟩⟩
    · rw [hres]; split <;> simp
    · rw [hres, ha, hb, hc, hd, he, hds, ← hz]
      constructor
      · intro h
        have hall : ∀ d ∈ ds, d = 0 := by
          by_contra hc'
          rw [if_neg hc'] at h
          exact absurd h (by decide)
        refine ⟨⟨rfl, ?_⟩, ⟨rfl, ?_⟩, rfl, rfl, rfl, hall⟩
        · intro p hp; simp at hp; rcases hp with rfl | rfl <;> assumption
        · intro p hp; simp at hp; rcases hp with rfl | rfl <;> assumption
      · rintro ⟨-, -, -, -, -, hall⟩
        rw [if_pos hall]
    · rintro ⟨d, hd1, hd2⟩
      rw [hres, if_neg]
      intro hall
      exact hd2 (hall d (hds ▸ hd1))

/-- Witness for `dma_example_result`: on `toyPlatform` every step succeeds and the result
is 0. -/
theorem dma_example_result_witness :
    (dma_example toyPlatform 0 buffer_size []).1 = 0 ∧
    returned "buffer_compare" (dma_example toyPlatform 0 buffer_size []).2 = [0, 0, 0, 0] :=
  have h := (dma_example_result toyPlatform 0 buffer_size).2.1.mp (by decide)
  ⟨by decide, h.2.2.2.2.2⟩

/-! ### The polling loops of `axi_mstr_ddr_access` and the hugepage check of `pcim_example` -/

/-- One run of the body of a poll loop, spelled out on the transcript. -/
theorem axi_poll_body_eq (env : Oracle) (h : Int) (off : Nat) (t : Log) :
    axi_poll_body env h off t =
      if (env t.length (.fpga_pci_peek h off)).ret ≠ 0 then
        (.inl (env t.length (.fpga_pci_peek h off)).ret,
          t ++ [(.fpga_pci_peek h off, env t.length (.fpga_pci_peek h off)),
            (.log_error "Unable to read AXI Master CCR from the fpga !",
              env (t.length + 1) (.log_error "Unable to read AXI Master CCR from the fpga !"))])
      else
        (.inr (((env t.length (.fpga_pci_peek h off)).out.headD 0 % 2 ^ 32) &&& 0x2),
          t ++ [(.fpga_pci_peek h off, env t.length (.fpga_pci_peek h off))]) := by
  unfold axi_poll_body
  simp only [call, List.append_assoc, List.cons_append, List.nil_append, List.length_append,
    List.length_cons, List.length_nil, Nat.zero_add]

/-- A poll loop entered with `poll_limit = n + 1`: it makes `k + 1` reads of the register for
some `k <= n`; every read before the last succeeded with the done bit clear; and it ends either
on a failed read, or on a read with the done bit set, or after `n + 1` reads without it. -/
theorem axi_poll_spec (env : Oracle) (h : Int) (off : Nat) (n : Nat) :
    ∀ t : Log, ∃ k, k ≤ n ∧
      (∀ j, j < k → (env (t.length + j) (.fpga_pci_peek h off)).ret = 0 ∧
        ((env (t.length + j) (.fpga_pci_peek h off)).out.headD 0 % 2 ^ 32) &&& 0x2 = 0) ∧
      (((env (t.length + k) (.fpga_pci_peek h off)).ret ≠ 0 ∧
        axi_poll env h off (n + 1) t =
          (.inl (env (t.length + k) (.fpga_pci_peek h off)).ret,
            t ++ (List.range (k + 1)).map (fun j =>
                (Call.fpga_pci_peek h off, env (t.length + j) (.fpga_pci_peek h off))) ++
              [(.log_error "Unable to read AXI Master CCR from the fpga !",
                env (t.length + (k + 1))
                  (.log_error "Unable to read AXI Master CCR from the fpga !"))])) ∨
       ((env (t.length + k) (.fpga_pci_peek h off)).ret = 0 ∧
        ((env (t.length + k) (.fpga_pci_peek h off)).out.headD 0 % 2 ^ 32) &&& 0x2 ≠ 0 ∧
        axi_poll env h off (n + 1) t =
          (.inr (((env (t.length + k) (.fpga_pci_peek h off)).out.headD 0 % 2 ^ 32) &&& 0x2),
            t ++ (List.range (k + 1)).map (fun j =>
                (Call.fpga_pci_peek h off, env (t.length + j) (.fpga_pci_peek h off))))) ∨
       ((env (t.length + k) (.fpga_pci_peek h off)).ret = 0 ∧
        ((env (t.length + k) (.fpga_pci_peek h off)).out.headD 0 % 2 ^ 32) &&& 0x2 = 0 ∧
        k = n ∧
        axi_poll env h off (n + 1) t =
          (.inr 0,
            t ++ (List.range (k + 1)).map (fun j =>
                (Call.fpga_pci_peek h off, env (t.length + j) (.fpga_pci_peek h off)))))) := by
  induction n with
  | zero =>
    intro t
    refine ⟨0, le_refl _, fun j hj => absurd hj (by omega), ?_⟩
    have e : axi_poll env h off (0 + 1) t = axi_poll_body env h off t := by
      rw [axi_poll]
      rw [if_neg (fun hc => absurd hc.2 (by omega))]
    rw [e, axi_poll_body_eq]
    by_cases h1 : (env t.length (.fpga_pci_peek h off)).ret = 0
    · rw [if_neg (not_not.mpr h1)]
      by_cases h2 : ((env t.length (.fpga_pci_peek h off)).out.headD 0 % 2 ^ 32) &&& 0x2 = 0
      · right; right
        refine ⟨h1, h2, rfl, ?_⟩
        rw [h2]
        rfl
      · right; left
        exact ⟨h1, h2, rfl⟩
    · rw [if_pos h1]
      left
      refine ⟨h1, ?_⟩
      simp only [List.range_succ_eq_map, List.range_zero, List.map_cons, List.map_nil,
          List.append_assoc, List.cons_append, List.nil_append, Nat.add_zero, Nat.zero_add]
  | succ n ih =>
    intro t
    by_cases h1 : (env t.length (.fpga_pci_peek h off)).ret = 0
    · by_cases h2 : ((env t.length (.fpga_pci_peek h off)).out.headD 0 % 2 ^ 32) &&& 0x2 = 0
      · have e : axi_poll env h off (n + 1 + 1) t = axi_poll env h off (n + 1)
            (t ++ [(.fpga_pci_peek h off, env t.length (.fpga_pci_peek h off))]) := by
          rw [axi_poll]
          rw [axi_poll_body_eq, if_neg (not_not.mpr h1), h2, if_pos ⟨rfl, by omega⟩]
        obtain ⟨k, hk, hall, hend⟩ :=
          ih (t ++ [(.fpga_pci_peek h off, env t.length (.fpga_pci_peek h off))])
        have hidx : ∀ j, (t ++ [(Call.fpga_pci_peek h off,
            env t.length (.fpga_pci_peek h off))]).length + j = t.length + (j + 1) := by
          intro j
          rw [List.length_append, List.length_singleton]
          omega
        have hl : ∀ m, t ++ [(Call.fpga_pci_peek h off, env t.length (.fpga_pci_peek h off))] ++
            (List.range m).map (fun j => (Call.fpga_pci_peek h off,
              env (t.length + (j + 1)) (.fpga_pci_peek h off))) =
            t ++ (List.range (m + 1)).map (fun j =>
              (Call.fpga_pci_peek h off, env (t.length + j) (.fpga_pci_peek h off))) := by
          intro m
          rw [List.range_succ_eq_map, List.map_cons, List.map_map, List.append_assoc]
          rfl
        simp only [hidx] at hall hend
        refine ⟨k + 1, by omega, ?_, ?_⟩
        · intro j hj
          cases j with
          | zero => exact ⟨h1, h2⟩
          | succ j => exact hall j (by omega)
        · rw [e]
          rcases hend with ⟨a, b⟩ | ⟨a, b, c⟩ | ⟨a, b, c, d⟩
          · left
            refine ⟨a, ?_⟩
            rw [b, hl]
          · right; left
            refine ⟨a, b, ?_⟩
            rw [c, hl]
          · right; right
            refine ⟨a, b, by omega, ?_⟩
            rw [d, hl]
      · refine ⟨0, by omega, fun j hj => absurd hj (by omega), Or.inr (Or.inl ?_)⟩
        refine ⟨h1, h2, ?_⟩
        rw [axi_poll]
        rw [axi_poll_body_eq, if_neg (not_not.mpr h1),
          if_neg (fun hc => h2 (Sum.inr.inj hc.1))]
        rfl
    · refine ⟨0, by omega, fun j hj => absurd hj (by omega), Or.inl ⟨h1, ?_⟩⟩
      rw [axi_poll]
      rw [axi_poll_body_eq, if_pos h1, if_neg (fun hc => by simp at hc)]
      simp only [List.range_succ_eq_map, List.range_zero, List.map_cons, List.map_nil,
          List.append_assoc, List.cons_append, List.nil_append, Nat.add_zero, Nat.zero_add]


/-- A poll loop whose `n + 1` reads all succeed without the done bit ends after exactly `n + 1`
reads with `read_data = 0`. -/
theorem axi_poll_exhausted (env : Oracle) (h : Int) (off : Nat) (n : Nat) (t : Log)
    (hall : ∀ j, j < n + 1 → (env (t.length + j) (.fpga_pci_peek h off)).ret = 0 ∧
      ((env (t.length + j) (.fpga_pci_peek h off)).out.headD 0 % 2 ^ 32) &&& 0x2 = 0) :
    axi_poll env h off (n + 1) t =
      (.inr 0, t ++ (List.range (n + 1)).map (fun j =>
        (Call.fpga_pci_peek h off, env (t.length + j) (.fpga_pci_peek h off)))) := by
  obtain ⟨k, hk, _, hend⟩ := axi_poll_spec env h off n t
  rcases hend with ⟨a, _⟩ | ⟨_, b, _⟩ | ⟨_, _, c, d⟩
  · exact absurd (hall k (by omega)).1 a
  · exact absurd (hall k (by omega)).2 b
  · rw [d, c]

/-- A poll loop whose read number `k` (counting from 0, `k <= n`) is the first with the done bit
set, all reads up to it succeeding, ends after exactly `k + 1` reads. -/
theorem axi_poll_done (env : Oracle) (h : Int) (off : Nat) (n k : Nat) (t : Log) (hk : k ≤ n)
    (hall : ∀ j, j < k → (env (t.length + j) (.fpga_pci_peek h off)).ret = 0 ∧
      ((env (t.length + j) (.fpga_pci_peek h off)).out.headD 0 % 2 ^ 32) &&& 0x2 = 0)
    (hret : (env (t.length + k) (.fpga_pci_peek h off)).ret = 0)
    (hdone : ((env (t.length + k) (.fpga_pci_peek h off)).out.headD 0 % 2 ^ 32) &&& 0x2 ≠ 0) :
    axi_poll env h off (n + 1) t =
      (.inr (((env (t.length + k) (.fpga_pci_peek h off)).out.headD 0 % 2 ^ 32) &&& 0x2),
        t ++ (List.range (k + 1)).map (fun j =>
          (Call.fpga_pci_peek h off, env (t.length + j) (.fpga_pci_peek h off)))) := by
  obtain ⟨k', hk', hall', hend⟩ := axi_poll_spec env h off n t
  have hkk : k' = k := by
    rcases Nat.lt_trichotomy k' k with hlt | heq | hgt
    · rcases hend with ⟨a, _⟩ | ⟨_, b, _⟩ | ⟨_, _, c, _⟩
      · exact absurd (hall k' hlt).1 a
      · exact absurd (hall k' hlt).2 b
      · omega
    · exact heq
    · exact absurd (hall' k hgt).2 hdone
  subst hkk
  rcases hend with ⟨a, _⟩ | ⟨_, _, c⟩ | ⟨_, b, _⟩
  · exact absurd hret a
  · exact c
  · exact absurd b hdone

theorem bne_zero_false (x : Int) (h : x = 0) : (x != 0) = false := by
  subst h; rfl

/-- The run of `axi_mstr_ddr_access` when the four set-up writes succeed and the first poll loop
ends without the done bit. -/
theorem axi_mstr_ddr_access_first_poll (env : Oracle) (slot_id h : Int) (hi lo data : Nat)
    (t : Log)
    (hp1 : (call env (.fpga_pci_poke h 0x504 hi) t).1.ret = 0)
    (hp2 : (call env (.fpga_pci_poke h 0x508 lo) (call env (.fpga_pci_poke h 0x504 hi) t).2).1.ret
      = 0)
    (hp3 : (call env (.fpga_pci_poke h 0x50C data) (call env (.fpga_pci_poke h 0x508 lo)
      (call env (.fpga_pci_poke h 0x504 hi) t).2).2).1.ret = 0)
    (hp4 : (call env (.fpga_pci_poke h 0x500 0x1) (call env (.fpga_pci_poke h 0x50C data)
      (call env (.fpga_pci_poke h 0x508 lo) (call env (.fpga_pci_poke h 0x504 hi) t).2).2).2).1.ret
      = 0)
    (hpoll : (axi_poll env h 0x500 20 (call env (.fpga_pci_poke h 0x500 0x1)
      (call env (.fpga_pci_poke h 0x50C data) (call env (.fpga_pci_poke h 0x508 lo)
        (call env (.fpga_pci_poke h 0x504 hi) t).2).2).2).2).1 = .inr 0) :
    axi_mstr_ddr_access env slot_id h hi lo data t =
      (1, (call env
        (.log_error "AXI Master write to DDR did not complete. Done bit not set in CCR.")
        (axi_poll env h 0x500 20 (call env (.fpga_pci_poke h 0x500 0x1)
          (call env (.fpga_pci_poke h 0x50C data) (call env (.fpga_pci_poke h 0x508 lo)
            (call env (.fpga_pci_poke h 0x504 hi) t).2).2).2).2).2).2) := by
  unfold axi_mstr_ddr_access fail_on
  dsimp only
  rw [bne_zero_false _ hp1, if_neg (by decide), bne_zero_false _ hp2, if_neg (by decide),
    bne_zero_false _ hp3, if_neg (by decide), bne_zero_false _ hp4, if_neg (by decide)]
  rw [hpoll]
  rfl

/-- The run of `axi_mstr_ddr_access` when the set-up writes succeed, the first poll loop sees
the done bit, the read command is issued and the second poll loop ends without the done bit. -/
theorem axi_mstr_ddr_access_second_poll (env : Oracle) (slot_id h : Int) (hi lo data : Nat)
    (t T4 : Log) (d : Nat)
    (hT4 : T4 = (call env (.fpga_pci_poke h 0x500 0x1)
      (call env (.fpga_pci_poke h 0x50C data) (call env (.fpga_pci_poke h 0x508 lo)
        (call env (.fpga_pci_poke h 0x504 hi) t).2).2).2).2)
    (hp1 : (call env (.fpga_pci_poke h 0x504 hi) t).1.ret = 0)
    (hp2 : (call env (.fpga_pci_poke h 0x508 lo) (call env (.fpga_pci_poke h 0x504 hi) t).2).1.ret
      = 0)
    (hp3 : (call env (.fpga_pci_poke h 0x50C data) (call env (.fpga_pci_poke h 0x508 lo)
      (call env (.fpga_pci_poke h 0x504 hi) t).2).2).1.ret = 0)
    (hp4 : (call env (.fpga_pci_poke h 0x500 0x1) (call env (.fpga_pci_poke h 0x50C data)
      (call env (.fpga_pci_poke h 0x508 lo) (call env (.fpga_pci_poke h 0x504 hi) t).2).2).2).1.ret
      = 0)
    (hpoll1 : (axi_poll env h 0x500 20 T4).1 = .inr d) (hd : d ≠ 0)
    (hp5 : (call env (.fpga_pci_poke h 0x500 0x5) (axi_poll env h 0x500 20 T4).2).1.ret = 0)
    (hpoll2 : (axi_poll env h 0x500 20
      (call env (.fpga_pci_poke h 0x500 0x5) (axi_poll env h 0x500 20 T4).2).2).1 = .inr 0) :
    axi_mstr_ddr_access env slot_id h hi lo data t =
      (1, (call env
        (.log_error "AXI Master read from DDR did not complete. Done bit not set in CCR.")
        (axi_poll env h 0x500 20
          (call env (.fpga_pci_poke h 0x500 0x5) (axi_poll env h 0x500 20 T4).2).2).2).2) := by
  subst hT4
  unfold axi_mstr_ddr_access fail_on
  dsimp only
  rw [bne_zero_false _ hp1, if_neg (by decide), bne_zero_false _ hp2, if_neg (by decide),
    bne_zero_false _ hp3, if_neg (by decide), bne_zero_false _ hp4, if_neg (by decide)]
  rw [hpoll1]
  dsimp only
  rw [if_neg hd, if_neg (by decide), bne_zero_false _ hp5, if_neg (by decide), hpoll2]
  rfl

/-- The calls of `n` reads of the same register are `n` equal calls. -/
theorem map_fst_peeks (f : Nat → Resp) (c : Call) (n : Nat) :
    ((List.range n).map (fun j => (c, f j))).map Prod.fst = List.replicate n c := by
  rw [List.map_map]
  have : (Prod.fst ∘ fun j => (c, f j)) = fun _ => c := rfl
  rw [this, List.map_const', List.length_range]

/-- C12: each "poll for done" loop of `axi_mstr_ddr_access` (the loop `axi_poll` entered with
`poll_limit = 20`) reads the CCR register `k + 1` times with `k <= 19`, every read before the
last having succeeded with bit `0x2` clear, and ends on a failed read, on a read with the bit
set, or after exactly 20 reads without it.  When all reads of the first loop succeed without
the bit, `axi_mstr_ddr_access` returns 1 after exactly 20 reads and one log line, with no further
command; likewise for the second loop once the first has seen the bit and the read command was
issued. -/
theorem axi_mstr_ddr_access_poll_bounded (env : Oracle) (slot_id h : Int) (hi lo data : Nat)
    (t : Log) :
    (∀ s : Log, ∃ k, k ≤ 19 ∧
      (∀ j, j < k → (env (s.length + j) (.fpga_pci_peek h 0x500)).ret = 0 ∧
        ((env (s.length + j) (.fpga_pci_peek h 0x500)).out.headD 0 % 2 ^ 32) &&& 0x2 = 0) ∧
      (((env (s.length + k) (.fpga_pci_peek h 0x500)).ret ≠ 0 ∧
        axi_poll env h 0x500 20 s =
          (.inl (env (s.length + k) (.fpga_pci_peek h 0x500)).ret,
            s ++ (List.range (k + 1)).map (fun j =>
                (Call.fpga_pci_peek h 0x500, env (s.length + j) (.fpga_pci_peek h 0x500))) ++
              [(.log_error "Unable to read AXI Master CCR from the fpga !",
                env (s.length + (k + 1))
                  (.log_error "Unable to read AXI Master CCR from the fpga !"))])) ∨
       ((env (s.length + k) (.fpga_pci_peek h 0x500)).ret = 0 ∧
        ((env (s.length + k) (.fpga_pci_peek h 0x500)).out.headD 0 % 2 ^ 32) &&& 0x2 ≠ 0 ∧
        axi_poll env h 0x500 20 s =
          (.inr (((env (s.length + k) (.fpga_pci_peek h 0x500)).out.headD 0 % 2 ^ 32) &&& 0x2),
            s ++ (List.range (k + 1)).map (fun j =>
                (Call.fpga_pci_peek h 0x500, env (s.length + j) (.fpga_pci_peek h 0x500))))) ∨
       ((env (s.length + k) (.fpga_pci_peek h 0x500)).ret = 0 ∧
        ((env (s.length + k) (.fpga_pci_peek h 0x500)).out.headD 0 % 2 ^ 32) &&& 0x2 = 0 ∧
        k = 19 ∧
        axi_poll env h 0x500 20 s =
          (.inr 0,
            s ++ (List.range (k + 1)).map (fun j =>
                (Call.fpga_pci_peek h 0x500, env (s.length + j) (.fpga_pci_peek h 0x500))))))) ∧
    ((env t.length (.fpga_pci_poke h 0x504 hi)).ret = 0 →
      (env (t.length + 1) (.fpga_pci_poke h 0x508 lo)).ret = 0 →
      (env (t.length + 2) (.fpga_pci_poke h 0x50C data)).ret = 0 →
      (env (t.length + 3) (.fpga_pci_poke h 0x500 0x1)).ret = 0 →
      (∀ j, j < 20 → (env (t.length + 4 + j) (.fpga_pci_peek h 0x500)).ret = 0 ∧
        ((env (t.length + 4 + j) (.fpga_pci_peek h 0x500)).out.headD 0 % 2 ^ 32) &&& 0x2 = 0) →
      (axi_mstr_ddr_access env slot_id h hi lo data t).1 = 1 ∧
      (axi_mstr_ddr_access env slot_id h hi lo data t).2.map Prod.fst =
        t.map Prod.fst ++
          [.fpga_pci_poke h 0x504 hi, .fpga_pci_poke h 0x508 lo, .fpga_pci_poke h 0x50C data,
            .fpga_pci_poke h 0x500 0x1] ++
          List.replicate 20 (.fpga_pci_peek h 0x500) ++
          [.log_error "AXI Master write to DDR did not complete. Done bit not set in CCR."]) ∧
    (∀ k, k < 20 →
      (env t.length (.fpga_pci_poke h 0x504 hi)).ret = 0 →
      (env (t.length + 1) (.fpga_pci_poke h 0x508 lo)).ret = 0 →
      (env (t.length + 2) (.fpga_pci_poke h 0x50C data)).ret = 0 →
      (env (t.length + 3) (.fpga_pci_poke h 0x500 0x1)).ret = 0 →
      (∀ j, j < k → (env (t.length + 4 + j) (.fpga_pci_peek h 0x500)).ret = 0 ∧
        ((env (t.length + 4 + j) (.fpga_pci_peek h 0x500)).out.headD 0 % 2 ^ 32) &&& 0x2 = 0) →
      (env (t.length + 4 + k) (.fpga_pci_peek h 0x500)).ret = 0 →
      ((env (t.length + 4 + k) (.fpga_pci_peek h 0x500)).out.headD 0 % 2 ^ 32) &&& 0x2 ≠ 0 →
      (env (t.length + 4 + k + 1) (.fpga_pci_poke h 0x500 0x5)).ret = 0 →
      (∀ j, j < 20 → (env (t.length + 4 + k + 2 + j) (.fpga_pci_peek h 0x500)).ret = 0 ∧
        ((env (t.length + 4 + k + 2 + j) (.fpga_pci_peek h 0x500)).out.headD 0 % 2 ^ 32) &&& 0x2
          = 0) →
      (axi_mstr_ddr_access env slot_id h hi lo data t).1 = 1 ∧
      (axi_mstr_ddr_access env slot_id h hi lo data t).2.map Prod.fst =
        t.map Prod.fst ++
          [.fpga_pci_poke h 0x504 hi, .fpga_pci_poke h 0x508 lo, .fpga_pci_poke h 0x50C data,
            .fpga_pci_poke h 0x500 0x1] ++
          List.replicate (k + 1) (.fpga_pci_peek h 0x500) ++
          [.fpga_pci_poke h 0x500 0x5] ++
          List.replicate 20 (.fpga_pci_peek h 0x500) ++
          [.log_error "AXI Master read from DDR did not complete. Done bit not set in CCR."]) := by
  have hlen : (call env (.fpga_pci_poke h 0x500 0x1)
      (call env (.fpga_pci_poke h 0x50C data) (call env (.fpga_pci_poke h 0x508 lo)
        (call env (.fpga_pci_poke h 0x504 hi) t).2).2).2).2.length = t.length + 4 := by
    simp [call]
  have hcalls : (call env (.fpga_pci_poke h 0x500 0x1)
      (call env (.fpga_pci_poke h 0x50C data) (call env (.fpga_pci_poke h 0x508 lo)
        (call env (.fpga_pci_poke h 0x504 hi) t).2).2).2).2.map Prod.fst = t.map Prod.fst ++
          [.fpga_pci_poke h 0x504 hi, .fpga_pci_poke h 0x508 lo, .fpga_pci_poke h 0x50C data,
            .fpga_pci_poke h 0x500 0x1] := by
    simp [call]
  refine ⟨fun s => axi_poll_spec env h 0x500 19 s, ?_, ?_⟩
  · intro hp1 hp2 hp3 hp4 hall
    have hpoll := axi_poll_exhausted env h 0x500 19 _
      (fun j hj => by rw [hlen]; exact hall j hj)
    rw [axi_mstr_ddr_access_first_poll env slot_id h hi lo data t hp1
      (by simpa [call] using hp2) (by simpa [call] using hp3) (by simpa [call] using hp4)
      (by rw [hpoll])]
    refine ⟨rfl, ?_⟩
    rw [hpoll]
    simp only [call, List.map_append, map_fst_peeks, hcalls, List.map_cons, List.map_nil,
      List.append_assoc, List.cons_append, List.nil_append]
  · intro k hk hp1 hp2 hp3 hp4 hall hret hdone hp5 hall2
    have hpoll1 := axi_poll_done env h 0x500 19 k _ (by omega)
      (fun j hj => by rw [hlen]; exact hall j hj) (by rw [hlen]; exact hret)
      (by rw [hlen]; exact hdone)
    have hlen5 : (call env (.fpga_pci_poke h 0x500 0x5) (axi_poll env h 0x500 20
        (call env (.fpga_pci_poke h 0x500 0x1)
          (call env (.fpga_pci_poke h 0x50C data) (call env (.fpga_pci_poke h 0x508 lo)
            (call env (.fpga_pci_poke h 0x504 hi) t).2).2).2).2).2).2.length
          = t.length + 4 + k + 2 := by
      rw [hpoll1]
      simp [call]
      omega
    have hpoll2 := axi_poll_exhausted env h 0x500 19 _
      (fun j hj => by rw [hlen5]; exact hall2 j hj)
    rw [axi_mstr_ddr_access_second_poll env slot_id h hi lo data t _ _ rfl hp1
      (by simpa [call] using hp2) (by simpa [call] using hp3) (by simpa [call] using hp4)
      (by rw [hpoll1]) (by rw [hlen]; exact hdone)
      (by
        have hl : (axi_poll env h 0x500 20 (call env (.fpga_pci_poke h 0x500 0x1)
          (call env (.fpga_pci_poke h 0x50C data) (call env (.fpga_pci_poke h 0x508 lo)
            (call env (.fpga_pci_poke h 0x504 hi) t).2).2).2).2).2.length
              = t.length + 4 + k + 1 := by
          rw [hpoll1]
          simp [call]
          omega
        show (env (List.length _) _).ret = 0
        rw [hl]
        exact hp5)
      (by rw [hpoll2])]
    refine ⟨rfl, ?_⟩
    rw [hpoll2, hpoll1]
    simp only [call, List.map_append, map_fst_peeks, hcalls, List.map_cons, List.map_nil,
      List.append_assoc, List.cons_append, List.nil_append]

/-- Witness for `axi_mstr_ddr_access_poll_bounded`: on a platform whose CCR never shows the bit,
and on one whose CCR shows it at the third read of the first loop only. -/
theorem axi_mstr_ddr_access_poll_bounded_witness :
    ((axi_mstr_ddr_access neverDonePlatform 0 0 1 2 3 []).1 = 1 ∧
      (axi_mstr_ddr_access neverDonePlatform 0 0 1 2 3 []).2.map Prod.fst =
        [.fpga_pci_poke 0 0x504 1, .fpga_pci_poke 0 0x508 2, .fpga_pci_poke 0 0x50C 3,
          .fpga_pci_poke 0 0x500 0x1] ++
        List.replicate 20 (.fpga_pci_peek 0 0x500) ++
        [.log_error "AXI Master write to DDR did not complete. Done bit not set in CCR."]) ∧
    ((axi_mstr_ddr_access doneOncePlatform 0 0 1 2 3 []).1 = 1 ∧
      (axi_mstr_ddr_access doneOncePlatform 0 0 1 2 3 []).2.map Prod.fst =
        [.fpga_pci_poke 0 0x504 1, .fpga_pci_poke 0 0x508 2, .fpga_pci_poke 0 0x50C 3,
          .fpga_pci_poke 0 0x500 0x1] ++
        List.replicate 3 (.fpga_pci_peek 0 0x500) ++
        [.fpga_pci_poke 0 0x500 0x5] ++
        List.replicate 20 (.fpga_pci_peek 0 0x500) ++
        [.log_error "AXI Master read from DDR did not complete. Done bit not set in CCR."]) :=
  ⟨(axi_mstr_ddr_access_poll_bounded neverDonePlatform 0 0 1 2 3 []).2.1 rfl rfl rfl rfl
      (by decide),
    (axi_mstr_ddr_access_poll_bounded doneOncePlatform 0 0 1 2 3 []).2.2 2 (by decide)
      rfl rfl rfl rfl (by decide) rfl (by decide) rfl (by decide)⟩

/-- C11: when `fpga_pci_attach` and `fpga_hugealloc_get` succeed and the hugepage is smaller than
the requested buffer (`buffer_size > sizeB`), `pcim_example` logs "HugePageAlloc Too small",
releases the hugepage and returns 0, the value `rc` still holds from `fpga_hugealloc_get`; the
statement `fail_on(rc, out, "PCIM example failed")` of `main` followed by its label `out:` then
logs "TEST PASSED" and returns 0. -/
theorem pcim_example_too_small_returns_zero (env : Oracle) (tstcfg_val : Nat) (slot_id : Int)
    (buffer_size : Nat) (t : Log)
    (hattach : (env t.length (.fpga_pci_attach slot_id 0 0 0)).ret = 0)
    (hhuge : (env (t.length + 1) .fpga_hugealloc_get).ret = 0)
    (hsmall : buffer_size > (env (t.length + 1) .fpga_hugealloc_get).out.getD 2 0 % 2 ^ 64) :
    (pcim_example env tstcfg_val slot_id buffer_size t).1 = 0 ∧
    (pcim_example env tstcfg_val slot_id buffer_size t).2.map Prod.fst =
      t.map Prod.fst ++
        [.fpga_pci_attach slot_id 0 0 0, .fpga_hugealloc_get,
          .log_info "PCIM example, host_mem: va %p, pa %p, buffer size %ld",
          .log_error "HugePageAlloc Too small",
          .fpga_hugealloc_put ((env (t.length + 1) .fpga_hugealloc_get).out.getD 0 0 % 2 ^ 64)] ∧
    (fail_on env ((pcim_example env tstcfg_val slot_id buffer_size t).1 != 0)
        (main_out env (pcim_example env tstcfg_val slot_id buffer_size t).1)
        "PCIM example failed"
        (main_out env (pcim_example env tstcfg_val slot_id buffer_size t).1)
        (pcim_example env tstcfg_val slot_id buffer_size t).2).1 = 0 ∧
    (fail_on env ((pcim_example env tstcfg_val slot_id buffer_size t).1 != 0)
        (main_out env (pcim_example env tstcfg_val slot_id buffer_size t).1)
        "PCIM example failed"
        (main_out env (pcim_example env tstcfg_val slot_id buffer_size t).1)
        (pcim_example env tstcfg_val slot_id buffer_size t).2).2.map Prod.fst =
      (pcim_example env tstcfg_val slot_id buffer_size t).2.map Prod.fst ++
        [.log_info "TEST PASSED", .do_post_rr] := by
  have hg : (call env .fpga_hugealloc_get (call env (.fpga_pci_attach slot_id 0 0 0) t).2).1
      = env (t.length + 1) .fpga_hugealloc_get := by
    simp [call]
  have e : pcim_example env tstcfg_val slot_id buffer_size t =
      (0, t ++ [(.fpga_pci_attach slot_id 0 0 0, env t.length (.fpga_pci_attach slot_id 0 0 0)),
        (.fpga_hugealloc_get, env (t.length + 1) .fpga_hugealloc_get),
        (.log_info "PCIM example, host_mem: va %p, pa %p, buffer size %ld",
          env (t.length + 2) (.log_info "PCIM example, host_mem: va %p, pa %p, buffer size %ld")),
        (.log_error "HugePageAlloc Too small",
          env (t.length + 3) (.log_error "HugePageAlloc Too small")),
        (.fpga_hugealloc_put ((env (t.length + 1) .fpga_hugealloc_get).out.getD 0 0 % 2 ^ 64),
          env (t.length + 4) (.fpga_hugealloc_put
            ((env (t.length + 1) .fpga_hugealloc_get).out.getD 0 0 % 2 ^ 64)))]) := by
    unfold pcim_example fail_on
    dsimp only
    rw [bne_zero_false _ (by rw [call_fst]; exact hattach), if_neg (by decide), hg,
      bne_zero_false _ hhuge, if_neg (by decide), if_pos (by simpa using hsmall)]
    simp only [pcim_free_huge, call, List.append_assoc, List.cons_append, List.nil_append,
      List.length_append, List.length_cons, List.length_nil, Nat.zero_add, hhuge]
  rw [e]
  refine ⟨rfl, ?_, rfl, ?_⟩
  · simp only [List.map_append, List.map_cons, List.map_nil]
  · unfold fail_on
    rw [if_neg (by rw [bne_zero_false _ rfl]; decide)]
    simp only [main_out, call, List.map_append, List.map_cons, List.map_nil, if_true,
      List.append_assoc, List.cons_append, List.nil_append]

/-- Witness for `pcim_example_too_small_returns_zero`: on a platform whose hugepage has 16 bytes,
asked for `buffer_size` (64 MiB). -/
theorem pcim_example_too_small_returns_zero_witness :
    (pcim_example smallHugePlatform 0 0 buffer_size []).1 = 0 ∧
    (pcim_example smallHugePlatform 0 0 buffer_size []).2.map Prod.fst =
      [.fpga_pci_attach 0 0 0 0, .fpga_hugealloc_get,
        .log_info "PCIM example, host_mem: va %p, pa %p, buffer size %ld",
        .log_error "HugePageAlloc Too small", .fpga_hugealloc_put 1000] :=
  have h := pcim_example_too_small_returns_zero smallHugePlatform 0 0 buffer_size [] rfl rfl
    (by decide)
  ⟨h.1, h.2.1⟩

end test_dram_dma

/-! ## Properties of the decoder and encoder of the specification -/

namespace rr_tool

theorem length_flatten_records (rs : List (List Byte))
    (h : ∀ r ∈ rs, r.length = cl_fpgarr.TRACE_LEN_BYTES) :
    rs.flatten.length = cl_fpgarr.TRACE_LEN_BYTES * rs.length := by
  induction rs with
  | nil => rfl
  | cons r rs ih =>
    simp only [List.flatten_cons, List.length_append, List.length_cons]
    rw [ih (fun x hx => h x (List.mem_cons_of_mem _ hx)), h r (List.mem_cons_self _ _)]
    ring

/-- Cutting a concatenation of 8-byte records into records gives the records back. -/
theorem records_flatten (rs : List (List Byte))
    (h : ∀ r ∈ rs, r.length = cl_fpgarr.TRACE_LEN_BYTES) : records rs.flatten = rs := by
  induction rs with
  | nil => rfl
  | cons r rs ih =>
    have hr := h r (List.mem_cons_self _ _)
    have hrs := fun x hx => h x (List.mem_cons_of_mem r hx)
    have ih' := ih hrs
    have hlen := length_flatten_records rs hrs
    unfold records at ih' ⊢
    simp only [cl_fpgarr.TRACE_LEN_BYTES] at hr hlen ih' ⊢
    have hl : (r :: rs).flatten.length / 8 = rs.length + 1 := by
      simp only [List.flatten_cons, List.length_append, hr, hlen]; omega
    have hl' : rs.flatten.length / 8 = rs.length := by rw [hlen]; omega
    rw [hl, List.range_succ_eq_map, List.map_cons, List.map_map]
    rw [hl'] at ih'
    congr 1
    · simp [hr]
    · refine Eq.trans ?_ ih'
      apply List.map_congr_left
      intro i _
      simp only [Function.comp, List.flatten_cons]
      rw [List.drop_append_eq_append_drop]
      have : List.drop (8 * (i + 1)) r = [] := List.drop_eq_nil_of_le (by omega)
      rw [this, hr]
      have e : 8 * (i + 1) - 8 = 8 * i := by omega
      simp [e]

/-- The records of a buffer whose length is a multiple of 8 have 8 bytes each. -/
theorem length_of_mem_records (bytes : List Byte)
    (h : bytes.length % cl_fpgarr.TRACE_LEN_BYTES = 0) :
    ∀ r ∈ records bytes, r.length = cl_fpgarr.TRACE_LEN_BYTES := by
  intro r hr
  simp only [records, cl_fpgarr.TRACE_LEN_BYTES, List.mem_map, List.mem_range] at hr h ⊢
  obtain ⟨i, hi, rfl⟩ := hr
  simp only [List.length_take, List.length_drop]
  omega

/-- A decoded event carries the position of its record and a channel of the profile. -/
theorem decodeRecord_some (p : Profile) (i : Nat) (r : List Byte) (e : Event)
    (h : decodeRecord p i r = some e) : e.sequence = i ∧ e.channel ∈ p.channels := by
  unfold decodeRecord at h
  split at h
  · simp at h
  · split at h
    · split at h
      · simp at h
      · simp only [Option.some.injEq] at h
        subst h
        exact ⟨rfl, by assumption⟩
    · simp at h

theorem encodeRecord_length (p : Profile) (e : Event) (r : List Byte)
    (h : encodeRecord p e = some r) : r.length = cl_fpgarr.TRACE_LEN_BYTES := by
  unfold encodeRecord at h
  split at h
  · simp at h
  · split at h
    · simp only [Option.some.injEq] at h
      subst h
      assumption
    · simp at h

/-- The events decoded from a buffer have strictly increasing `sequence`, starting at the
position of the first record, and channels of the profile. -/
theorem decodeAll_sequence (p : Profile) (rs : List (List Byte)) :
    ∀ (i : Nat) (evs : List Event), decodeAll p i rs = some evs →
      (∀ e ∈ evs, i ≤ e.sequence ∧ e.channel ∈ p.channels) ∧
      evs.Pairwise (fun a b => a.sequence < b.sequence) := by
  induction rs with
  | nil =>
    intro i evs h
    simp only [decodeAll, Option.some.injEq] at h
    subst h
    simp
  | cons r rs ih =>
    intro i evs h
    simp only [decodeAll] at h
    split at h
    · simp at h
    · rename_i e he
      split at h
      · simp at h
      · rename_i es hes
        simp only [Option.some.injEq] at h
        subst h
        obtain ⟨h1, h2⟩ := ih (i + 1) es hes
        obtain ⟨hs, hc⟩ := decodeRecord_some p i r e he
        refine ⟨?_, ?_⟩
        · intro x hx
          rcases List.mem_cons.mp hx with rfl | hx
          · exact ⟨by omega, hc⟩
          · exact ⟨by have := (h1 x hx).1; omega, (h1 x hx).2⟩
        · refine List.Pairwise.cons ?_ h2
          intro x hx
          have := (h1 x hx).1
          omega

/-- Under a well-formed profile, the events decoded from 8-byte records encode to records that
decode to the same events. -/
theorem decodeAll_encodeAll (p : Profile) (hp : p.WellFormed) (rs : List (List Byte)) :
    ∀ (i : Nat) (evs : List Event), (∀ r ∈ rs, r.length = cl_fpgarr.TRACE_LEN_BYTES) →
      decodeAll p i rs = some evs →
      ∃ rs', encodeAll p evs = some rs' ∧ decodeAll p i rs' = some evs ∧
        ∀ r ∈ rs', r.length = cl_fpgarr.TRACE_LEN_BYTES := by
  induction rs with
  | nil =>
    intro i evs _ h
    simp only [decodeAll, Option.some.injEq] at h
    subst h
    exact ⟨[], rfl, rfl, by simp⟩
  | cons r rs ih =>
    intro i evs hlen h
    simp only [decodeAll] at h
    split at h
    · simp at h
    · rename_i e he
      split at h
      · simp at h
      · rename_i es hes
        simp only [Option.some.injEq] at h
        subst h
        obtain ⟨rs', h1, h2, h3⟩ :=
          ih (i + 1) es (fun x hx => hlen x (List.mem_cons_of_mem _ hx)) hes
        obtain ⟨r', hr1, hr2⟩ := hp.2 i r e (hlen r (List.mem_cons_self _ _)) he
        refine ⟨r' :: rs', ?_, ?_, ?_⟩
        · simp [encodeAll, hr1, h1]
        · simp [decodeAll, hr2, h2]
        · intro x hx
          rcases List.mem_cons.mp hx with rfl | hx
          · exact encodeRecord_length p e _ hr1
          · exact h3 x hx

theorem decodeAll_length (p : Profile) (rs : List (List Byte)) :
    ∀ (i : Nat) (evs : List Event), decodeAll p i rs = some evs → evs.length = rs.length := by
  induction rs with
  | nil => intro i evs h; simp only [decodeAll, Option.some.injEq] at h; subst h; rfl
  | cons r rs ih =>
    intro i evs h
    simp only [decodeAll] at h
    split at h
    · simp at h
    · split at h
      · simp at h
      · rename_i es hes
        simp only [Option.some.injEq] at h
        subst h
        simp [ih (i + 1) es hes]

/-- Splitting events by channel and putting the channels one after the other rearranges them. -/
theorem flatMap_filter_perm (cs : List Nat) (hcs : cs.Nodup) (evs : List Event) :
    (cs.flatMap (fun c => evs.filter (fun e => e.channel = c))).Perm
      (evs.filter (fun e => e.channel ∈ cs)) := by
  induction cs with
  | nil => simp
  | cons c cs ih =>
    have hc : c ∉ cs := (List.nodup_cons.mp hcs).1
    have h1 := ih (List.nodup_cons.mp hcs).2
    simp only [List.flatMap_cons]
    refine (List.Perm.append_left _ h1).trans ?_
    have h2 := List.filter_append_perm (fun e : Event => decide (e.channel = c))
      (evs.filter (fun e => e.channel ∈ c :: cs))
    refine List.Perm.trans ?_ h2
    rw [List.filter_filter, List.filter_filter]
    have e1 : (evs.filter fun e => decide (e.channel = c) && decide (e.channel ∈ c :: cs)) =
        evs.filter (fun e => e.channel = c) := by
      apply List.filter_congr
      intro x _
      by_cases hx : x.channel = c <;> simp [hx]
    have e2 : (evs.filter fun e => (!decide (e.channel = c)) && decide (e.channel ∈ c :: cs)) =
        evs.filter (fun e => e.channel ∈ cs) := by
      apply List.filter_congr
      intro x _
      by_cases hx : x.channel = c
      · simp [hx, hc]
      · simp [hx]
    rw [e1, e2]

/-- Two arrangements of the same events, both ordered by `sequence`, are equal when the
sequence numbers are pairwise different. -/
theorem eq_of_perm_of_sorted_sequence :
    ∀ (l1 l2 : List Event), l1.Perm l2 →
      l1.Sorted (fun a b => a.sequence ≤ b.sequence) →
      l2.Pairwise (fun a b => a.sequence < b.sequence) → l1 = l2
  | [], l2, hp, _, _ => (List.Perm.nil_eq hp)
  | a :: l1, [], hp, _, _ => absurd hp.symm (List.nil_perm.not.mpr (by simp))
  | a :: l1, b :: l2, hp, hs1, hs2 => by
    have ha : a ∈ b :: l2 := hp.subset (List.mem_cons_self _ _)
    have hb : b ∈ a :: l1 := hp.symm.subset (List.mem_cons_self _ _)
    have hab : a = b := by
      rcases List.mem_cons.mp ha with h | h
      · exact h
      · rcases List.mem_cons.mp hb with h' | h'
        · exact h'.symm
        · have h1 := (List.pairwise_cons.mp hs2).1 a h
          have h2 := (List.pairwise_cons.mp hs1).1 b h'
          omega
    subst hab
    have := eq_of_perm_of_sorted_sequence l1 l2 (List.Perm.cons_inv hp)
      (List.pairwise_cons.mp hs1).2 (List.pairwise_cons.mp hs2).2
    rw [this]

/-- Bringing the per-channel events of a decoded trace back into `sequence` order gives the
decoded events in buffer order. -/
theorem insertionSort_channels (p : Profile) (hp : p.channels.Nodup) (evs : List Event)
    (hc : ∀ e ∈ evs, e.channel ∈ p.channels)
    (hs : evs.Pairwise (fun a b => a.sequence < b.sequence)) :
    ((p.channels.map (fun c => (c, evs.filter (fun e => e.channel = c)))).flatMap
      (fun ce => ce.2)).insertionSort (fun a b => a.sequence ≤ b.sequence) = evs := by
  have hperm : ((p.channels.map (fun c => (c, evs.filter (fun e => e.channel = c)))).flatMap
      (fun ce => ce.2)).Perm evs := by
    have h1 := flatMap_filter_perm p.channels hp evs
    have h2 : evs.filter (fun e => e.channel ∈ p.channels) = evs := by
      apply List.filter_eq_self.mpr
      intro e he
      simpa using hc e he
    rw [h2] at h1
    simpa [List.flatMap_map] using h1
  haveI : IsTotal Event (fun a b => a.sequence ≤ b.sequence) := ⟨fun a b => Nat.le_total _ _⟩
  haveI : IsTrans Event (fun a b => a.sequence ≤ b.sequence) :=
    ⟨fun a b c h1 h2 => Nat.le_trans h1 h2⟩
  exact eq_of_perm_of_sorted_sequence _ _ ((List.perm_insertionSort _ _).trans hperm)
    (List.sorted_insertionSort _ _) hs

/-- Round trip of the modelled codec: a trace produced by `decode` encodes, and the bytes decode
to the same trace. -/
theorem decode_encode_decode (p : Profile) (hp : p.WellFormed) (bytes : List Byte) (t : Trace)
    (h : decode p bytes = some t) :
    ∃ bytes', encode p t = some bytes' ∧ decode p bytes' = some t := by
  unfold decode at h
  split at h
  · simp at h
  · rename_i hlen
    split at h
    · simp at h
    · rename_i evs hevs
      simp only [Option.some.injEq] at h
      subst h
      have hlen' : bytes.length % cl_fpgarr.TRACE_LEN_BYTES = 0 := by simpa using hlen
      obtain ⟨rs', h1, h2, h3⟩ := decodeAll_encodeAll p hp (records bytes) 0 evs
        (length_of_mem_records bytes hlen') hevs
      obtain ⟨hseq, hpair⟩ := decodeAll_sequence p (records bytes) 0 evs hevs
      refine ⟨rs'.flatten, ?_, ?_⟩
      · simp only [encode]
        rw [insertionSort_channels p hp.1 evs (fun e he => (hseq e he).2) hpair, h1]
      · have hl := length_flatten_records rs' h3
        unfold decode
        rw [if_neg (by rw [hl]; simp), records_flatten rs' h3, h2]

/-- C3: round trip through the export path.  With the decoder and encoder of the specification
over a well-formed profile, the mutate action on an input file that decodes to `t` returns 0 and
leaves an output file whose bytes decode, under the same profile, to `t`. -/
theorem DecoderCmdExec_mutate_round_trip (profile : BUSCFG → Profile)
    (compare : BUSCFG → Trace → Trace → Bool → Bool → Bool) (cfg : BUSCFG)
    (options : argoptions_t) (rc : Int) (w : Files) (input output : String)
    (bytes : List Byte) (t : Trace)
    (hp : (profile cfg).WellFormed)
    (hop : options.op_type = .OP_MUTATE)
    (hin : options.input_filepath = some input)
    (hout : options.output_filepath = some output)
    (hfile : w input = some bytes)
    (hdec : decode (profile cfg) bytes = some t) :
    ∃ (w' : Files) (bytes' : List Byte),
      DecoderCmdExec (specCollaborators profile compare) cfg options rc w = some (0, w') ∧
      w' output = some bytes' ∧ decode (profile cfg) bytes' = some t ∧
      ∀ f, f ≠ output → w' f = w f := by
  obtain ⟨bytes', he, hd⟩ := decode_encode_decode (profile cfg) hp bytes t hdec
  refine ⟨fun g => if g = output then some bytes' else w g, bytes', ?_, by simp, hd, ?_⟩
  · simp [DecoderCmdExec, specCollaborators, hop, hin, hout, hfile, hdec, he]
  · intro f hf
    simp [hf]

/-- The toy profile is well formed. -/
theorem toyProfile_wellFormed : toyProfile.WellFormed := by
  refine ⟨by simp [toyProfile], ?_⟩
  intro i r e hr he
  have he' : e = { channel := 0, kind := 0, sequence := i, fields := r.map (fun b => b.val) } := by
    simp [decodeRecord, toyProfile] at he
    exact he.symm
  subst he'
  refine ⟨r, ?_, he⟩
  have hof : ∀ x : Fin 256, (Fin.ofNat x.val : Fin 256) = x :=
    fun x => Fin.ext (Nat.mod_eq_of_lt x.isLt)
  simp [encodeRecord, toyProfile, hr, Function.comp_def, hof]

/-- Witness for `DecoderCmdExec_mutate_round_trip`: a file of two records under the toy
profile. -/
theorem DecoderCmdExec_mutate_round_trip_witness :
    ∃ (w' : Files) (bytes' : List Byte),
      DecoderCmdExec (specCollaborators (fun _ => toyProfile) (fun _ _ _ _ _ => true))
        .record_bus_t
        { blankOptions with op_type := .OP_MUTATE, input_filepath := some "in.dump",
                            output_filepath := some "out.dump" } 0
        (fun f => if f = "in.dump" then some [1, 2, 3, 4, 5, 6, 7, 8, 9, 10, 11, 12, 13, 14, 15, 16]
          else none) = some (0, w') ∧
      w' "out.dump" = some bytes' ∧
      decode toyProfile bytes' = decode toyProfile
        [1, 2, 3, 4, 5, 6, 7, 8, 9, 10, 11, 12, 13, 14, 15, 16] :=
  have h := DecoderCmdExec_mutate_round_trip (fun _ => toyProfile) (fun _ _ _ _ _ => true)
    .record_bus_t
    { blankOptions with op_type := .OP_MUTATE, input_filepath := some "in.dump",
                        output_filepath := some "out.dump" } 0
    (fun f => if f = "in.dump" then some [1, 2, 3, 4, 5, 6, 7, 8, 9, 10, 11, 12, 13, 14, 15, 16]
      else none) "in.dump" "out.dump" [1, 2, 3, 4, 5, 6, 7, 8, 9, 10, 11, 12, 13, 14, 15, 16]
    ((decode toyProfile [1, 2, 3, 4, 5, 6, 7, 8, 9, 10, 11, 12, 13, 14, 15, 16]).get (by decide))
    toyProfile_wellFormed rfl rfl rfl (by simp) (by simp)
  h.imp fun _ hw => hw.imp fun _ hb => ⟨hb.1, hb.2.1, by rw [hb.2.2.1]; simp⟩

end rr_tool
